import Mathlib

/-!
# Verification of the cc-statusline compilation pipeline

A shallow embedding of the statusline script generator of `cc-statusline`
(`src/generators/bash-generator.ts`, `src/features/colors.ts`,
`src/features/system.ts`, `src/features/usage.ts`) together with models of
the repository modules whose sources are absent from the snapshot
(`bash-optimizer.ts`, `template-cache.ts`, `cache-manager.ts`, `git.ts`);
those models are marked `Modelled from the spec:` in their doc comments.

Script text is manipulated both as `String` and as `List Char`
(`String.data`).  All text-rewriting passes are written as single
left-to-right scans that consume at least one character per step, so they
evaluate lazily and facts about their outputs can be observed on bounded
prefixes.
-/

set_option maxRecDepth 1000000

namespace CCStatusline

/-! ## Basic character-list utilities -/

/-- A shell "word" character: ASCII letter, digit or underscore
(the token alphabet used for whole-token identifier matching). -/
def isWordChar (c : Char) : Bool :=
  (('a' ≤ c && c ≤ 'z') || ('A' ≤ c && c ≤ 'Z') || ('0' ≤ c && c ≤ '9') || c = '_')

/-- Strip `pat` from the front of `l`; `some rest` on success. -/
def stripPfx : List Char → List Char → Option (List Char)
  | [], l => some l
  | _ :: _, [] => none
  | p :: ps, c :: cs => if p = c then stripPfx ps cs else none

/-- Substring test: does `pat` occur (contiguously) in `text`? -/
def containsSub (pat : List Char) : List Char → Bool
  | [] => (stripPfx pat []).isSome
  | c :: cs => (stripPfx pat (c :: cs)).isSome || containsSub pat cs

/-- String-level wrapper for `containsSub`. -/
def strContains (text pat : String) : Bool :=
  containsSub pat.data text.data

/-- Count of characters satisfying `p`. -/
def countCharP (p : Char → Bool) : List Char → Nat
  | [] => 0
  | c :: cs => (if p c then 1 else 0) + countCharP p cs

end CCStatusline

namespace CCStatusline

/-! ## The optimizer (`bash-optimizer.ts`)

`bash-optimizer.ts` is not in the source snapshot; only its test files
(`src/__tests__/setup.ts` and the unnamed test file importing
`../../generators/bash-optimizer.js`) and call sites survive.  Everything
in this section is modelled from the spec (§4.3 Optimizer), with the
concrete replacement tables taken from the expectations those tests pin
down. -/

/-- Modelled from the spec: the fixed identifier-compaction table
`COMPACT_VARIABLES` of the missing `bash-optimizer.ts` (spec §4.3 pass 1),
with the entries pinned by the repository's own tests.  Entries map a
verbose identifier to its short alias. -/
def COMPACT_VARIABLES : List (String × String) :=
  [ ("current_directory_path", "cwd"),
    ("current_dir", "cwd"),
    ("home_directory", "home"),
    ("git_branch_name", "git_branch"),
    ("is_git_repository", "is_git_repo"),
    ("git_cache_file", "git_cache"),
    ("session_percentage", "pct"),
    ("total_tokens", "tot_tokens"),
    ("tokens_per_minute", "tpm"),
    ("cost_per_hour", "cost_ph"),
    ("use_color_flag", "use_color"),
    ("color_prefix", "clr_pre"),
    ("color_suffix", "clr_suf"),
    ("cache_file_path", "cache_file") ]

/-- Try the compaction table at the current position.  Returns
`some (replacement, matchedLength)`.  A braced reference `${v}` rewrites
to `$a` (the tests pin the brace-dropping); a bare whole-token occurrence
of `v` (not preceded and not followed by a word character) rewrites to
`a`. -/
def matchCompact (entries : List (String × String)) (prevW : Bool)
    (l : List Char) : Option (List Char × Nat) :=
  match entries with
  | [] => none
  | (v, a) :: rest =>
    match stripPfx ('$' :: '{' :: v.data ++ ['}']) l with
    | some _ => some ('$' :: a.data, v.data.length + 3)
    | none =>
      if prevW then matchCompact rest prevW l
      else
        match stripPfx v.data l with
        | some after =>
          match after with
          | [] => some (a.data, v.data.length)
          | c :: _ =>
            if isWordChar c then matchCompact rest prevW l
            else some (a.data, v.data.length)
        | none => matchCompact rest prevW l

/-- Modelled from the spec: the scan of optimizer pass 1 (identifier
compaction, §4.3).  `skip` characters of already-matched input are
consumed first; `prevW` tracks whether the previously consumed source
character was a word character (whole-token boundary check). -/
def cScan : Nat → Bool → List Char → List Char
  | _ + 1, _, [] => []
  | skip + 1, _, c :: rest => cScan skip (isWordChar c) rest
  | 0, _, [] => []
  | 0, prevW, c :: rest =>
    match matchCompact COMPACT_VARIABLES prevW (c :: rest) with
    | some (rep, len) => rep ++ cScan (len - 1) prevW rest
    | none => c :: cScan 0 (isWordChar c) rest

/-- Modelled from the spec: optimizer pass 1, identifier compaction
(`applyCompactVariables` of the missing `bash-optimizer.ts`).  When
`compactVariables` is false the input is returned unchanged (pinned by the
tests). -/
def applyCompactVariables (code : String) (compactVariables : Bool) : String :=
  if compactVariables then ⟨cScan 0 false code.data⟩ else code

/-- Try the idiom-substitution rules at the current position.  Returns
`some (replacement, matchedLength)`.  Ordered as the spec requires
(§4.3 pass 2, §9): each rewrite is preceded by its
"already in target form — skip" guard, so `[[` and
`${EPOCHSECONDS:-$(date +%s)}` are copied verbatim, single-bracket
`-z` and `-n` tests become double-bracket tests, and the exact
command-existence / sed / cat / exit-status patterns pinned by the tests
are replaced by builtins. -/
def matchBuiltin (l : List Char) : Option (List Char × Nat) :=
  -- guard: already-optimized epoch idiom, copied verbatim
  match stripPfx "${EPOCHSECONDS:-$(date +%s)}".data l with
  | some _ => some ("${EPOCHSECONDS:-$(date +%s)}".data, 28)
  | none =>
  -- guard: a double bracket is copied verbatim, so the bracket rules
  -- below never fire inside an already-transformed construct
  match l with
  | '[' :: '[' :: _ => some (['[', '['], 2)
  | _ =>
  match stripPfx "[ \"$(command -v jq)\" ]".data l with
  | some _ => some ("command -v jq >/dev/null 2>&1".data, 22)
  | none =>
  match stripPfx "[ \"$(command -v git)\" ]".data l with
  | some _ => some ("command -v git >/dev/null 2>&1".data, 23)
  | none =>
  match stripPfx "[ \"$(which jq)\" ]".data l with
  | some _ => some ("command -v jq >/dev/null 2>&1".data, 17)
  | none =>
  match stripPfx "$(echo \"$var\" | sed \"s|^$HOME|~|g\")".data l with
  | some _ => some ("${var/#$HOME/~}".data, 35)
  | none =>
  match stripPfx "$(echo \"$var\" | sed \"s|$HOME|~|g\")".data l with
  | some _ => some ("${var/$HOME/~}".data, 34)
  | none =>
  match stripPfx "$(cat \"$file\")".data l with
  | some _ => some ("$(<\"$file\")".data, 14)
  | none =>
  match stripPfx "[ $? -eq 0 ]".data l with
  | some _ => some ("((! $?))".data, 12)
  | none =>
  match stripPfx "$(date +%s)".data l with
  | some _ => some ("${EPOCHSECONDS:-$(date +%s)}".data, 11)
  | none =>
  -- single-bracket boolean tests, quoted and unquoted variants
  match stripPfx "[ -z \"$".data l with
  | some after =>
    match spanWord after with
    | (name, '\"' :: ' ' :: ']' :: _) =>
      if name.isEmpty then none
      else some ("[[ ! $".data ++ name ++ " ]]".data, 7 + name.length + 3)
    | _ => none
  | none =>
  match stripPfx "[ -z $".data l with
  | some after =>
    match spanWord after with
    | (name, ' ' :: ']' :: _) =>
      if name.isEmpty then none
      else some ("[[ ! $".data ++ name ++ " ]]".data, 6 + name.length + 2)
    | _ => none
  | none =>
  match stripPfx "[ -n \"$".data l with
  | some after =>
    match spanWord after with
    | (name, '\"' :: ' ' :: ']' :: _) =>
      if name.isEmpty then none
      else some ("[[ $".data ++ name ++ " ]]".data, 7 + name.length + 3)
    | _ => none
  | none =>
  match stripPfx "[ -n $".data l with
  | some after =>
    match spanWord after with
    | (name, ' ' :: ']' :: _) =>
      if name.isEmpty then none
      else some ("[[ $".data ++ name ++ " ]]".data, 6 + name.length + 2)
    | _ => none
  | none => none
where
  /-- Longest prefix of word characters, with the remainder. -/
  spanWord : List Char → List Char × List Char
    | [] => ([], [])
    | c :: cs =>
      if isWordChar c then
        let (w, r) := spanWord cs
        (c :: w, r)
      else ([], c :: cs)

/-- Modelled from the spec: the scan of optimizer pass 2 (idiom
substitution).  `skip` characters of already-matched input are consumed
first. -/
def bScan : Nat → List Char → List Char
  | _ + 1, [] => []
  | skip + 1, _ :: rest => bScan skip rest
  | 0, [] => []
  | 0, c :: rest =>
    match matchBuiltin (c :: rest) with
    | some (rep, len) => rep ++ bScan (len - 1) rest
    | none => c :: bScan 0 rest

/-- Modelled from the spec: optimizer pass 2, idiom substitution
(`applyBuiltinReplacements` of the missing `bash-optimizer.ts`).  When
`useBuiltins` is false the input is returned unchanged (pinned by the
tests). -/
def applyBuiltinReplacements (code : String) (useBuiltins : Bool) : String :=
  if useBuiltins then ⟨bScan 0 code.data⟩ else code

/-- Modelled from the spec: the scan of optimizer pass 3 (whitespace
normalization): runs of three or more newlines collapse to exactly two;
content and comment lines are untouched.  `k` is the number of newlines
just emitted (saturating at 2). -/
def nlScan : Nat → List Char → List Char
  | _, [] => []
  | k, '\n' :: rest =>
    if k ≥ 2 then nlScan k rest else '\n' :: nlScan (k + 1) rest
  | _, c :: rest => c :: nlScan 0 rest

/-- Modelled from the spec: optimizer pass 3, whitespace normalization. -/
def collapseBlankRuns (code : String) : String :=
  ⟨nlScan 0 code.data⟩

/-- Modelled from the spec: the body of `optimizeBashCode` — the three
fixed-order passes (§4.3).  `Except` models the possibility of an
exception escaping a pass. -/
def runOptimizationPasses (code : String) : Except String String :=
  .ok (collapseBlankRuns
        (applyBuiltinReplacements (applyCompactVariables code true) true))

/-- Modelled from the spec: the failure policy of `optimizeBashCode` —
any exception raised by the optimization body is caught internally and
the pre-optimization text is returned unchanged (§4.3, §7). -/
def optimizeBashCodeWith (body : String → Except String String)
    (code : String) : String :=
  match body code with
  | .ok r => r
  | .error _ => code

/-- Modelled from the spec: `optimizeBashCode` of the missing
`bash-optimizer.ts` — the three passes wrapped in the catch-all failure
policy. -/
def optimizeBashCode (code : String) : String :=
  optimizeBashCodeWith runOptimizationPasses code

/-! ## The validator (`validateOptimizations`)

Also part of the missing `bash-optimizer.ts`; modelled from the spec
(§4.4 Validator) and the expectations of its tests. -/

/-- Finding severity (spec §3 `ValidationFinding`). -/
inductive Severity where
  | low
  | medium
  | high
deriving DecidableEq, Repr

/-- Numeric rank, used to take maxima of severities. -/
def Severity.rank : Severity → Nat
  | .low => 0
  | .medium => 1
  | .high => 2

/-- The larger of two severities. -/
def Severity.max (a b : Severity) : Severity :=
  if a.rank ≤ b.rank then b else a

/-- Modelled from the spec: one finding of the validator
(`{category, severity, message}`, §3). -/
structure ValidationFinding where
  category : String
  severity : Severity
  message : String
deriving DecidableEq, Repr

/-- Modelled from the spec: the validator's output
`{isValid, findings, aggregate severity}` (§4.4). -/
structure OptValidationResult where
  isValid : Bool
  findings : List ValidationFinding
  severity : Severity
deriving DecidableEq, Repr

/-- Maximum severity over a list of findings (`low` when empty). -/
def maxSeverity (fs : List ValidationFinding) : Severity :=
  fs.foldl (fun acc f => acc.max f.severity) .low

/-- Number of double-quote characters in a string. -/
def quoteCount (s : String) : Nat :=
  countCharP (fun c => c = '\"') s.data

/-- Number of occurrences of character `c`. -/
def charCount (c : Char) (s : String) : Nat :=
  countCharP (fun d => d = c) s.data

/-- Modelled from the spec: the findings of `validateOptimizations`
(§4.4): quote-balance equality between original and optimized text,
bracket-balance equality for each bracket kind, a malformed nested
test-bracket check, and a heuristic guard against newly introduced
blocking calls. -/
def validationFindings (original optimized : String) : List ValidationFinding :=
  (if quoteCount optimized % 2 ≠ quoteCount original % 2 then
    [⟨"syntax", .high, "unbalanced quotes introduced by optimization"⟩]
  else []) ++
  (if (charCount '[' optimized - charCount ']' optimized ≠
        charCount '[' original - charCount ']' original) ∨
      (charCount ']' optimized - charCount '[' optimized ≠
        charCount ']' original - charCount '[' original) then
    [⟨"syntax", .high, "unbalanced square brackets introduced by optimization"⟩]
  else []) ++
  (if (charCount '(' optimized - charCount ')' optimized ≠
        charCount '(' original - charCount ')' original) ∨
      (charCount ')' optimized - charCount '(' optimized ≠
        charCount ')' original - charCount '(' original) then
    [⟨"syntax", .high, "unbalanced parentheses introduced by optimization"⟩]
  else []) ++
  (if strContains optimized "[[[" && !(strContains original "[[[") then
    [⟨"syntax", .high, "malformed nested test brackets"⟩]
  else []) ++
  (if strContains optimized "sleep " && !(strContains original "sleep ") then
    [⟨"performance", .medium, "optimization introduced a blocking sleep call"⟩]
  else [])

/-- Modelled from the spec: `validateOptimizations (original, optimized)`
of the missing `bash-optimizer.ts`: the findings above, the aggregate
severity (their maximum), and validity — a high-severity finding makes the
result invalid (§4.4). -/
def validateOptimizations (original optimized : String) : OptValidationResult :=
  let fs := validationFindings original optimized
  { isValid := maxSeverity fs ≠ .high
    findings := fs
    severity := maxSeverity fs }

/-- Modelled from the spec: the caller-side contract of the validator —
any high-severity finding forces the caller to discard the optimized text
and ship the original (§4.4, §7). -/
def deliverOptimized (original candidate : String) : String :=
  if (validateOptimizations original candidate).isValid then candidate
  else original

/-! ## The file-tier cache (`cache-manager.ts`)

`cache-manager.ts` is not in the source snapshot; only mocked call sites
and the generated header comment
`Cache location: ~/.claude/ccusage_cache.json (30s TTL with 5m stale fallback)`
survive.  Modelled from the spec (§4.5 CacheManager, File tier). -/

/-- Modelled from the spec: a file-tier cache entry, tagged with its
creation time (§3 `CacheEntry`). -/
structure FileCacheEntry where
  value : String
  createdAt : Nat
deriving DecidableEq, Repr

/-- Modelled from the spec: the file-tier `get` combined with the live
refresh attempt (§4.5).  `refresh` is the outcome of the concurrent
refresh attempt against the external source: `some v` on success, `none`
on failure (non-zero exit, timeout, or error).  Within TTL the stored
value is served; between TTL and the grace window the stored value is
served only when the refresh failed; beyond the grace window the entry is
treated as absent, leaving only the refresh outcome. -/
def fileCacheGet (now ttl graceWindow : Nat) (entry : Option FileCacheEntry)
    (refresh : Option String) : Option String :=
  match entry with
  | none => refresh
  | some e =>
    if now - e.createdAt ≤ ttl then some e.value
    else if now - e.createdAt ≤ graceWindow then
      match refresh with
      | some v => some v
      | none => some e.value
    else refresh

end CCStatusline

namespace CCStatusline

/-! ## Configuration data model (`src/cli/prompts.ts`, feature interfaces) -/

/-- `systemMonitoring` of `StatuslineConfig` (`prompts.ts`).  The numeric
fields are modelled as naturals; only `refreshRate` is ever read by the
generator (the thresholds are stored but not interpolated). -/
structure SystemMonitoringConfig where
  refreshRate : Nat
  cpuThreshold : Nat
  memoryThreshold : Nat
  loadThreshold : Nat
deriving DecidableEq, Repr

/-- `StatuslineConfig` (`prompts.ts`). -/
structure StatuslineConfig where
  features : List String
  runtime : String
  colors : Bool
  theme : String
  ccusageIntegration : Bool
  logging : Bool
  customEmojis : Bool
  systemMonitoring : Option SystemMonitoringConfig := none
deriving DecidableEq, Repr

/-- `thresholds` of `UsageFeature` (`usage.ts`).  The generator only ever
constructs the fixed default values (15, 30, 80, 25), so naturals model
the interpolated text exactly. -/
structure UsageThresholds where
  costWarning : Nat
  timeWarning : Nat
  contextWarning : Nat
  efficiencyWarning : Nat
deriving DecidableEq, Repr

/-- `UsageFeature` (`usage.ts`). -/
structure UsageFeature where
  enabled : Bool
  showCost : Bool
  showTokens : Bool
  showBurnRate : Bool
  showSession : Bool
  showProgressBar : Bool
  showCacheEfficiency : Bool
  showProjections : Bool
  showContextUsage : Bool
  showEfficiencyAlerts : Bool
  compactMode : Bool
  thresholds : Option UsageThresholds := none
deriving DecidableEq, Repr

/-- The git feature configuration built by `generateBashStatusline`. -/
structure GitFeature where
  enabled : Bool
  showBranch : Bool
  showChanges : Bool
  compactMode : Bool
deriving DecidableEq, Repr

/-- `SystemFeature` (`system.ts`).  `displayFormat` is the literal string
`"compact"` or `"detailed"`. -/
structure SystemFeature where
  enabled : Bool
  showCPU : Bool
  showRAM : Bool
  showLoad : Bool
  refreshRate : Nat
  displayFormat : String
deriving DecidableEq, Repr

/-- Modelled from the spec: the encoders and emitted-code providers whose
sources are absent from the snapshot — `git.ts` (`generateGitUtilities`,
`generateGitBashCode`, `generateGitDisplayCode`) and the code-emitting
methods of `cache-manager.ts` (`generateFileCacheCode`,
`generateCacheInitCode`).  The spec fixes only that they are pure
functions of their arguments (§4.1), so they are carried as parameters of
the embedding; every theorem below holds for all of them. -/
structure ExternalEncoders where
  gitUtilities : String
  gitBashCode : GitFeature → Bool → String
  gitDisplayCode : GitFeature → Bool → Bool → String
  fileCacheCode : String → String → String
  cacheInitCode : String

/-- A trivial instantiation of the missing encoders, used only to close
counterexamples over configurations that never invoke them. -/
def trivialEncoders : ExternalEncoders :=
  { gitUtilities := ""
    gitBashCode := fun _ _ => ""
    gitDisplayCode := fun _ _ _ => ""
    fileCacheCode := fun _ _ => ""
    cacheInitCode := "" }

/-- JavaScript rendering of a boolean into template text. -/
def boolStr (b : Bool) : String := if b then "true" else "false"

/-! ## Color feature (`src/features/colors.ts`) -/

/-- `ColorConfig` (`colors.ts`). -/
structure ColorConfig where
  enabled : Bool
  theme : String
deriving DecidableEq, Repr

/-- `generateColorBashCode` (`colors.ts`). -/
def generateColorBashCode (config : ColorConfig) : String :=
  let bashCode : String :=
    if !config.enabled then
      "\n# ---- color helpers (disabled) ----\nuse_color=0\nC() \x7b :; \x7d\nRST() \x7b :; \x7d\n"
    else
      "\n# ---- color helpers (terminal-safe with focus preservation) ----\nuse_color=1\n\n# Honor explicit environment variables\n[[ $NO_COLOR ]] && use_color=0\n[[ $FORCE_COLOR ]] && use_color=1\n\n# Detect modern terminals (more permissive than TTY-only)\nif (( use_color && ! FORCE_COLOR )); then\n  # Check for explicit color support indicators\n  case \"$TERM\" in\n    *color*|*-256color|xterm*|screen*|tmux*) \n      use_color=1 ;;\n    dumb|unknown) \n      use_color=0 ;;\n    *) \n      # Default to colors for modern environments (WSL, containers, etc.)\n      # Only disable if we're definitely not in a capable terminal\n      [[ -t 1 ]] || use_color=1  # Enable colors even for non-TTY if not explicitly disabled\n      ;;\n  esac\nfi\n\n# Terminal state preservation and safe ANSI sequence generation\nsave_terminal_state() \x7b\n  # Save cursor position and terminal attributes (if supported)\n  [[ $use_color -eq 1 ]] && printf '\\0337' 2>/dev/null || true\n\x7d\n\nrestore_terminal_state() \x7b\n  # Restore cursor position and ensure clean state\n  [[ $use_color -eq 1 ]] && printf '\\0338\\033[0m' 2>/dev/null || true\n\x7d\n\n# Safer color function with validation and error handling\nC() \x7b \n  if (( use_color )); then\n    # Validate input is a valid ANSI color code\n    local code=\"$1\"\n    if [[ $code =~ ^[0-9]+(;[0-9]+)*$ ]]; then\n      printf '\\033[%sm' \"$code\" 2>/dev/null || true\n    fi\n  fi\n\x7d\n\n# Enhanced reset function that ensures terminal cleanup\nRST() \x7b \n  if (( use_color )); then\n    # Use both specific reset and general reset for safety\n    printf '\\033[0m' 2>/dev/null || true\n    # Additional cleanup for certain terminals\n    printf '\\033[?25h' 2>/dev/null || true  # Ensure cursor is visible\n  fi\n\x7d\n\n# Emergency terminal reset function (for error recovery)\nEMERGENCY_RESET() \x7b\n  printf '\\033[0m\\033[?25h\\033[2J\\033[H' 2>/dev/null || true\n\x7d\n\n# Trap to ensure terminal state is restored on any exit\ntrap 'restore_terminal_state' EXIT INT TERM\n"
  optimizeBashCode bashCode

/-- `generateBasicColors` (`colors.ts`). -/
def generateBasicColors : String :=
  optimizeBashCode "\n# ---- basic colors (terminal-safe) ----\ndir_clr() \x7b C '1;36'; \x7d    # cyan\nmodel_clr() \x7b C '1;35'; \x7d  # magenta  \nver_clr() \x7b C '1;33'; \x7d    # yellow\nrst() \x7b RST; \x7d\n"

/-! ## Script scaffolding (`src/generators/bash-generator.ts`) -/

/-- The fixed text of `generateScriptHeader` before the interpolated
creation timestamp (`bash-generator.ts` line 142ff). -/
def headerCreatedPre : String :=
  "#!/bin/bash\n# Generated by cc-statusline (https://www.npmjs.com/package/@sponzig/cc-statusline)\n# Custom Claude Code statusline - Created: "

/-- The text of `generateScriptHeader` after the creation timestamp:
theme, colors and the feature list joined in input order. -/
def headerAfterCreated (config : StatuslineConfig) : String :=
  "\n# Theme: " ++ config.theme ++ " | Colors: " ++ boolStr config.colors ++ " | Features: "
    ++ String.intercalate ", " config.features ++ "\n#\n# Debug mode: Set CC_STATUSLINE_DEBUG=1 to enable debug logging\n# Cache location: ~/.claude/ccusage_cache.json (30s TTL with 5m stale fallback)"

/-- `generateScriptHeader` (`bash-generator.ts`): the shebang and
metadata comment, embedding the invocation timestamp
(`new Date().toISOString()` at generation time) and the feature list
in input order. -/
def generateScriptHeader (config : StatuslineConfig) (timestamp : String) : String :=
  headerCreatedPre ++ timestamp ++ headerAfterCreated config

/-- `generateLoggingCode` (`bash-generator.ts`). -/
def generateLoggingCode : String :=
  "\nLOG_FILE=\"$\x7bHOME\x7d/.claude/statusline.log\"\nTIMESTAMP=$(date '+%Y-%m-%d %H:%M:%S')\n\n# ---- logging ----\n\x7b\n  echo \"[$TIMESTAMP] Status line triggered with input:\"\n  (echo \"$input\" | jq . 2>/dev/null) || echo \"$input\"\n  echo \"---\"\n\x7d >> \"$LOG_FILE\" 2>/dev/null\n"

/-- `generateRateLimitingCode` (`bash-generator.ts`). -/
def generateRateLimitingCode : String :=
  "\n# ---- rate limiting and error recovery ----\nrate_limit_file=\"$\x7bHOME\x7d/.claude/statusline_rate_limit.tmp\"\nerror_log_file=\"$\x7bHOME\x7d/.claude/statusline_errors.log\"\ncurrent_time=$\x7bEPOCHSECONDS:-$(date +%s)\x7d\nmin_interval=0  # Minimum 100ms between executions (0 seconds for now, could be tuned)\n\n# Error recovery function\nhandle_statusline_error() \x7b\n  local error_msg=\"$1\"\n  local timestamp=\"$(date '+%Y-%m-%d %H:%M:%S')\"\n  \n  # Log error if debug mode or persistent errors\n  if [[ $CC_STATUSLINE_DEBUG ]] || [[ -f \"$error_log_file\" ]]; then\n    echo \"[$timestamp] Statusline error: $error_msg\" >> \"$error_log_file\" 2>/dev/null\n  fi\n  \n  # Attempt terminal recovery\n  EMERGENCY_RESET 2>/dev/null || true\n  \n  # Exit with clean state\n  exit 1\n\x7d\n\n# Set up error traps for comprehensive error handling\ntrap 'handle_statusline_error \"Unexpected termination\"' ERR\ntrap 'restore_terminal_state; exit 0' EXIT\n\n# Enhanced rate limiting with error recovery\nif [[ -f \"$rate_limit_file\" ]]; then\n  if ! last_time=$(cat \"$rate_limit_file\" 2>/dev/null); then\n    # File read error - recreate\n    mkdir -p \"$\x7bHOME\x7d/.claude\" 2>/dev/null\n    echo \"0\" > \"$rate_limit_file\" 2>/dev/null || \x7b\n      handle_statusline_error \"Cannot write rate limit file\"\n    \x7d\n    last_time=0\n  fi\n  \n  time_diff=$(( current_time - last_time ))\n  if (( time_diff < min_interval )); then\n    # Too frequent, exit silently but cleanly\n    restore_terminal_state 2>/dev/null || true\n    exit 0\n  fi\nfi\n\n# Update rate limit timestamp with error handling\nmkdir -p \"$\x7bHOME\x7d/.claude\" 2>/dev/null || \x7b\n  # Fallback to /tmp if home directory is not writable\n  rate_limit_file=\"/tmp/statusline_rate_limit_$\x7bUSER:-unknown\x7d.tmp\"\n\x7d\necho \"$current_time\" > \"$rate_limit_file\" 2>/dev/null || \x7b\n  # If we can't write rate limiting file, continue but with warning\n  [[ $CC_STATUSLINE_DEBUG ]] && echo \"[WARNING] Rate limiting disabled - cannot write to $rate_limit_file\" >&2\n\x7d"

/-- `generateContentTrackingCode` (`bash-generator.ts`). -/
def generateContentTrackingCode : String :=
  "\n# ---- content tracking and terminal safety ----\ncontent_displayed=0\n\n# Initialize terminal state preservation\nsave_terminal_state 2>/dev/null || true\n\n# Validate terminal output capability\nvalidate_terminal_output() \x7b\n  # Check if we can safely write to terminal\n  if [[ ! -t 1 ]]; then\n    # Not a terminal - skip color codes and complex formatting\n    use_color=0\n    return 0\n  fi\n  \n  # Test basic printf functionality\n  if ! printf \"\" 2>/dev/null; then\n    handle_statusline_error \"Terminal output validation failed\"\n    return 1\n  fi\n  \n  return 0\n\x7d\n\n# Safe output function with error handling\nsafe_printf() \x7b\n  local format=\"$1\"\n  shift\n  \n  # Validate we can write to terminal\n  if ! validate_terminal_output; then\n    return 1\n  fi\n  \n  # Attempt printf with error recovery\n  if ! printf \"$format\" \"$@\" 2>/dev/null; then\n    handle_statusline_error \"Output formatting failed\"\n    return 1\n  fi\n  \n  return 0\n\x7d\n\n# Run initial validation\nvalidate_terminal_output || exit 1"

/-- `generateLoggingOutput` (`bash-generator.ts`). -/
def generateLoggingOutput : String :=
  optimizeBashCode "\n# ---- log extracted data ----\n\x7b\n  echo \"[$TIMESTAMP] Extracted: dir=$\x7bcwd:-\x7d, model=$\x7bmodel_name:-\x7d, version=$\x7bmodel_version:-\x7d, git=$\x7bgit_branch:-\x7d, cost=$\x7bcost_usd:-\x7d, cost_ph=$\x7bcost_ph:-\x7d, tokens=$\x7btot_tokens:-\x7d, tpm=$\x7btpm:-\x7d, pct=$\x7bpct:-\x7d\"\n\x7d >> \"$LOG_FILE\" 2>/dev/null\n"

/-- `generateBasicDataExtraction` (`bash-generator.ts`). -/
def generateBasicDataExtraction (hasDirectory hasModel : Bool) : String :=
  if !hasDirectory && !hasModel then ""
  else
    let jqFields : List String :=
      (if hasDirectory then ["cwd: (.workspace.current_dir // .cwd // \"unknown\")"] else []) ++
      (if hasModel then
        ["model_name: (.model.display_name // \"Claude\")",
         "model_version: (.model.version // \"\")"]
       else [])
    let fallbackVars : List String :=
      (if hasDirectory then ["cwd=\"unknown\""] else []) ++
      (if hasModel then ["model_name=\"Claude\"; model_version=\"\""] else [])
    let jqQuery := "\x7b" ++ String.intercalate ", " jqFields ++ "\x7d"
    let bashCode :=
      "\n# ---- basics ----\nif command -v jq >/dev/null 2>&1; then\n  eval \"$(echo \"$input\" | jq -r '" ++ jqQuery ++ " | to_entries | .[] | \"\\(.key)=\\(.value | @sh)\"' 2>/dev/null)\""
        ++ (if hasDirectory then "\n  cwd=$\x7bcwd/#$HOME/~\x7d" else "")
        ++ "\nelse\n  " ++ String.intercalate "; " fallbackVars ++ "\nfi\n"
    optimizeBashCode bashCode

end CCStatusline

namespace CCStatusline

/-! ## System feature (`src/features/system.ts`) -/

/-- Decimal rendering of a natural, as JavaScript renders the numeric
configuration values it interpolates. -/
def natStr (n : Nat) : String := toString n

/-- The color helper block of `generateSystemBashCode` when colors are
enabled (`system.ts`). -/
def systemColorCodeOn : String :=
  "\n# ---- system colors ----\ncpu_clr() \x7b \n  if (( cpu_percent > 80 )); then CLR='1;31'\n  elif (( cpu_percent > 50 )); then CLR='1;33'\n  else CLR='1;32'; fi\n  [[ $use_color -eq 1 ]] && printf '\\033[%sm' \"$CLR\"\n\x7d\nmem_clr() \x7b \n  if (( mem_percent > 85 )); then CLR='1;31'\n  elif (( mem_percent > 60 )); then CLR='1;33'\n  else CLR='1;32'; fi\n  [[ $use_color -eq 1 ]] && printf '\\033[%sm' \"$CLR\"\n\x7d\nload_clr() \x7b \n  if (( $(echo \"$load_1min > 2.0\" | bc -l 2>/dev/null || echo 0) )); then CLR='1;31'\n  elif (( $(echo \"$load_1min > 1.0\" | bc -l 2>/dev/null || echo 0) )); then CLR='1;33'\n  else CLR='1;32'; fi\n  [[ $use_color -eq 1 ]] && printf '\\033[%sm' \"$CLR\"\n\x7d\nsys_clr() \x7b [[ $use_color -eq 1 ]] && printf '\\033[1;36m'; \x7d\n"

/-- The color helper block of `generateSystemBashCode` when colors are
disabled (`system.ts`). -/
def systemColorCodeOff : String :=
  "\ncpu_clr() \x7b :; \x7d\nmem_clr() \x7b :; \x7d\nload_clr() \x7b :; \x7d\nsys_clr() \x7b :; \x7d\n"

/-- The `showCPU` segment of the `sysLinuxCPU` platform case of
`generateSystemBashCode` (`system.ts`). -/
def sysLinuxCPU : String :=
  "\n      # Enhanced CPU detection with /proc/stat priority for efficiency\n      linux_cpu_detected=0\n      \n      # Primary method: Direct /proc/stat reading (most efficient)\n      if [[ $linux_cpu_detected -eq 0 ]] && [[ -r /proc/stat ]]; then\n        # Single read with optimized parsing\n        if read -r cpu_line < /proc/stat 2>/dev/null && [[ $cpu_line ]]; then\n          cpu_times=($cpu_line)\n          if [[ $\x7b#cpu_times[@]\x7d -ge 8 ]]; then\n            # Optimized integer-only calculation with bounds checking\n            user=$\x7bcpu_times[1]:-0\x7d; nice=$\x7bcpu_times[2]:-0\x7d; system=$\x7bcpu_times[3]:-0\x7d\n            idle=$\x7bcpu_times[4]:-0\x7d; iowait=$\x7bcpu_times[5]:-0\x7d; irq=$\x7bcpu_times[6]:-0\x7d; softirq=$\x7bcpu_times[7]:-0\x7d\n            steal=$\x7bcpu_times[8]:-0\x7d  # Include steal time for virtualized environments\n            \n            active=$((user + nice + system + irq + softirq + steal))\n            total=$((active + idle + iowait))\n            \n            if (( total > 0 )); then\n              cpu_percent=$(( active * 100 / total ))\n              # Bounds checking for sanity\n              (( cpu_percent > 100 )) && cpu_percent=100\n              (( cpu_percent < 0 )) && cpu_percent=0\n              linux_cpu_detected=1\n            fi\n          fi\n        fi\n      fi\n      \n      # Fallback 1: vmstat method for systems where /proc/stat is unreliable\n      if [[ $linux_cpu_detected -eq 0 ]] && command -v vmstat >/dev/null 2>&1; then\n        vmstat_output=$(vmstat 1 2 2>/dev/null | tail -1)\n        if [[ $vmstat_output ]]; then\n          cpu_idle=$(echo \"$vmstat_output\" | awk '\x7bprint $15\x7d' 2>/dev/null)\n          if [[ $cpu_idle =~ ^[0-9]+$ ]] && (( cpu_idle >= 0 && cpu_idle <= 100 )); then\n            cpu_percent=$((100 - cpu_idle))\n            linux_cpu_detected=1\n          fi\n        fi\n      fi\n      \n      # Fallback 2: top command for older systems\n      if [[ $linux_cpu_detected -eq 0 ]] && command -v top >/dev/null 2>&1; then\n        cpu_line=$(top -bn1 | grep \"^%Cpu\" 2>/dev/null | head -1)\n        if [[ $cpu_line ]]; then\n          # Parse top CPU line (format varies by version)\n          cpu_percent=$(echo \"$cpu_line\" | awk '\x7b\n            # Look for patterns like: %Cpu(s):  5.2%us,  1.0%sy\n            if (match($0, /([0-9.]+)%[[:space:]]*us.*([0-9.]+)%[[:space:]]*sy/, arr)) \x7b\n              user_pct = arr[1]; sys_pct = arr[2]\n              print int(user_pct + sys_pct + 0.5)  # Round to nearest int\n            \x7d\n          \x7d' 2>/dev/null)\n          if [[ $cpu_percent =~ ^[0-9]+$ ]] && (( cpu_percent >= 0 && cpu_percent <= 100 )); then\n            linux_cpu_detected=1\n          fi\n        fi\n      fi"

/-- The `showRAM` segment of the `sysLinuxRAM` platform case of
`generateSystemBashCode` (`system.ts`). -/
def sysLinuxRAM : String :=
  "\n      \n      # Enhanced /proc/meminfo parsing with comprehensive metrics\n      linux_mem_detected=0\n      \n      # Primary method: Optimized /proc/meminfo single-pass parsing\n      if [[ $linux_mem_detected -eq 0 ]] && [[ -r /proc/meminfo ]]; then\n        # Single awk pass for all memory metrics with enhanced accuracy\n        eval \"$(awk '\n          /^MemTotal:/ \x7b total = $2 \x7d\n          /^MemAvailable:/ \x7b avail = $2; has_avail = 1 \x7d\n          /^MemFree:/ \x7b free = $2 \x7d\n          /^Buffers:/ \x7b buffers = $2 \x7d\n          /^Cached:/ \x7b cached = $2 \x7d\n          /^SReclaimable:/ \x7b sreclaimable = $2 \x7d\n          /^Shmem:/ \x7b shmem = $2 \x7d\n          END \x7b\n            if (total > 0) \x7b\n              if (has_avail) \x7b\n                # Use kernel-calculated MemAvailable if available (Linux 3.14+)\n                used_kb = total - avail\n              \x7d else \x7b\n                # Calculate available memory manually for older kernels\n                # Include SReclaimable but subtract Shmem for accuracy\n                avail = free + buffers + cached + sreclaimable - shmem\n                if (avail < 0) avail = free + buffers + cached  # Fallback calculation\n                used_kb = total - avail\n              \x7d\n              \n              # Bounds checking and integer math with proper rounding\n              if (used_kb < 0) used_kb = 0\n              if (used_kb > total) used_kb = total\n              \n              # Convert to GB with rounding (add 524288 KB for 0.5GB rounding)\n              used_gb = int((used_kb + 524288) / 1048576)\n              total_gb = int((total + 524288) / 1048576)\n              percent = (total > 0) ? int(used_kb * 100 / total) : 0\n              \n              # Additional bounds checking\n              if (percent < 0) percent = 0\n              if (percent > 100) percent = 100\n              \n              printf \"mem_total_kb=%d;mem_used_kb=%d;mem_used_gb=%d;mem_total_gb=%d;mem_percent=%d\", total, used_kb, used_gb, total_gb, percent\n            \x7d\n          \x7d' /proc/meminfo 2>/dev/null)\"\n        \n        # Validate results and mark as detected if successful\n        if [[ $mem_total_gb && $mem_total_gb -gt 0 ]]; then\n          linux_mem_detected=1\n          # Additional safety bounds\n          [[ $mem_used_gb -lt 0 ]] && mem_used_gb=0\n          [[ $mem_total_gb -lt 1 ]] && mem_total_gb=1\n        fi\n      fi\n      \n      # Fallback 1: free command for systems with limited /proc access\n      if [[ $linux_mem_detected -eq 0 ]] && command -v free >/dev/null 2>&1; then\n        free_info=$(free -m 2>/dev/null | awk 'NR==2 \x7bprint $2, $7\x7d')  # total, available\n        if [[ $free_info ]]; then\n          read -r mem_total_mb mem_avail_mb <<< \"$free_info\"\n          if [[ $mem_total_mb && $mem_total_mb -gt 0 ]]; then\n            # Convert to GB and calculate percentage\n            mem_total_gb=$(( (mem_total_mb + 512) / 1024 ))  # Round to nearest GB\n            if [[ $mem_avail_mb && $mem_avail_mb -gt 0 ]]; then\n              mem_used_mb=$((mem_total_mb - mem_avail_mb))\n              mem_used_gb=$(( (mem_used_mb + 512) / 1024 ))\n              mem_percent=$(( mem_used_mb * 100 / mem_total_mb ))\n            else\n              # Estimate if available not provided\n              mem_used_gb=$(( mem_total_gb / 2 ))\n              mem_percent=50\n            fi\n            linux_mem_detected=1\n          fi\n        fi\n      fi"

/-- The `showLoad` segment of the `sysLinuxLoad` platform case of
`generateSystemBashCode` (`system.ts`). -/
def sysLinuxLoad : String :=
  "\n      \n      if [[ -r /proc/loadavg ]]; then\n        read -r load_1min load_5min load_15min _ < /proc/loadavg\n      fi"

/-- The `showCPU` segment of the `sysWslCPU` platform case of
`generateSystemBashCode` (`system.ts`). -/
def sysWslCPU : String :=
  "\n      # WSL-optimized CPU detection - prefer /proc/stat for consistency\n      if [[ -r /proc/stat ]]; then\n        cpu_line=$(head -1 /proc/stat 2>/dev/null)\n        if [[ $cpu_line ]]; then\n          cpu_times=($cpu_line)\n          if [[ $\x7b#cpu_times[@]\x7d -ge 8 ]]; then\n            # Integer-only calculation optimized for WSL\n            user=$\x7bcpu_times[1]:-0\x7d; nice=$\x7bcpu_times[2]:-0\x7d; system=$\x7bcpu_times[3]:-0\x7d\n            idle=$\x7bcpu_times[4]:-0\x7d; iowait=$\x7bcpu_times[5]:-0\x7d; irq=$\x7bcpu_times[6]:-0\x7d; softirq=$\x7bcpu_times[7]:-0\x7d\n            active=$((user + nice + system + irq + softirq))\n            total=$((active + idle + iowait))\n            if (( total > 0 )); then\n              cpu_percent=$(( active * 100 / total ))\n            fi\n          fi\n        fi\n      fi\n      \n      # Fallback to vmstat if /proc/stat failed\n      if [[ $cpu_percent -eq 0 ]] && command -v vmstat >/dev/null 2>&1; then\n        vmstat_output=$(vmstat 1 2 2>/dev/null | tail -1)\n        if [[ $vmstat_output ]]; then\n          cpu_idle=$(echo \"$vmstat_output\" | awk '\x7bprint $15\x7d' 2>/dev/null)\n          if [[ $cpu_idle =~ ^[0-9]+$ ]] && (( cpu_idle <= 100 )); then\n            cpu_percent=$((100 - cpu_idle))\n          fi\n        fi\n      fi"

/-- The `showRAM` segment of the `sysWslRAM` platform case of
`generateSystemBashCode` (`system.ts`). -/
def sysWslRAM : String :=
  "\n      \n      # WSL-optimized memory detection with enhanced /proc/meminfo parsing\n      if [[ -r /proc/meminfo ]]; then\n        # Single-pass awk optimized for WSL performance characteristics\n        eval \"$(awk '\n          /^MemTotal:/ \x7b total = $2 \x7d\n          /^MemAvailable:/ \x7b avail = $2; has_avail = 1 \x7d\n          /^MemFree:/ \x7b free = $2 \x7d\n          /^Buffers:/ \x7b buffers = $2 \x7d\n          /^Cached:/ \x7b cached = $2 \x7d\n          /^SReclaimable:/ \x7b sreclaimable = $2 \x7d\n          END \x7b\n            if (!has_avail) \x7b\n              # WSL-specific calculation including SReclaimable for accuracy\n              avail = free + buffers + cached + sreclaimable\n            \x7d\n            if (total > 0 && avail >= 0) \x7b\n              used_kb = total - avail\n              # Integer math with proper rounding optimized for WSL\n              used_gb = int((used_kb + 524288) / 1048576)\n              total_gb = int((total + 524288) / 1048576)\n              percent = int(used_kb * 100 / total)\n              printf \"mem_total_kb=%d;mem_used_kb=%d;mem_used_gb=%d;mem_total_gb=%d;mem_percent=%d\", total, used_kb, used_gb, total_gb, percent\n            \x7d\n          \x7d' /proc/meminfo 2>/dev/null)\"\n        \n        # WSL-specific validation and bounds checking\n        [[ $mem_used_gb -lt 0 ]] && mem_used_gb=0\n        [[ $mem_total_gb -lt 1 ]] && mem_total_gb=1\n      fi"

/-- The `showLoad` segment of the `sysWslLoad` platform case of
`generateSystemBashCode` (`system.ts`). -/
def sysWslLoad : String :=
  "\n      \n      # WSL-optimized load average - direct /proc/loadavg reading\n      if [[ -r /proc/loadavg ]]; then\n        read -r load_1min load_5min load_15min _ < /proc/loadavg\n        # WSL-specific load normalization if needed\n        if [[ $SYS_WSL_VERSION == \"1\" ]] && command -v nproc >/dev/null 2>&1; then\n          # WSL1 may need load adjustment based on CPU cores\n          cpu_cores=$(nproc 2>/dev/null || echo \"1\")\n          # Adjust load values for single-core WSL1 if necessary\n          if (( cpu_cores == 1 )) && (( $(echo \"$load_1min > 1.0\" | bc -l 2>/dev/null || echo 0) )); then\n            # Cap load at reasonable values for single-core WSL1\n            load_1min=$(echo \"scale=2; if ($load_1min > 2.0) 2.0 else $load_1min\" | bc -l 2>/dev/null || echo \"$load_1min\")\n          fi\n        fi\n      fi"

/-- The `showCPU` segment of the `sysMacCPU` platform case of
`generateSystemBashCode` (`system.ts`). -/
def sysMacCPU : String :=
  "\n      if command -v top >/dev/null 2>&1; then\n        # Single top call with optimized parsing\n        cpu_info=$(top -l 1 -n 0 | grep \"CPU usage\" 2>/dev/null)\n        if [[ $cpu_info ]]; then\n          # Extract user and sys CPU using awk for better performance\n          cpu_percent=$(echo \"$cpu_info\" | awk '\n            match($0, /([0-9.]+)%[[:space:]]+user.*([0-9.]+)%[[:space:]]+sys/, arr) \x7b\n              user = int(arr[1] + 0.5)  # Round to nearest integer\n              sys = int(arr[2] + 0.5)   # Round to nearest integer\n              print user + sys\n            \x7d')\n          # Validate result\n          [[ ! $cpu_percent =~ ^[0-9]+$ ]] && cpu_percent=0\n        fi\n      fi"

/-- The `showRAM` segment of the `sysMacRAM` platform case of
`generateSystemBashCode` (`system.ts`). -/
def sysMacRAM : String :=
  "\n      \n      # Enhanced macOS memory detection with fallbacks\n      macos_mem_detected=0\n      \n      # Primary method: sysctl + vm_stat\n      if [[ $macos_mem_detected -eq 0 ]] && command -v vm_stat >/dev/null 2>&1 && command -v sysctl >/dev/null 2>&1; then\n        mem_total_bytes=$(sysctl -n hw.memsize 2>/dev/null)\n        page_size=$(sysctl -n hw.pagesize 2>/dev/null || echo \"4096\")\n        if [[ $mem_total_bytes && $mem_total_bytes -gt 0 && $page_size && $page_size -gt 0 ]]; then\n          # Single vm_stat call with dynamic page size and enhanced parsing\n          eval \"$(vm_stat 2>/dev/null | awk -v page_size=$page_size '\n            /Pages free:/ \x7b free = $3; gsub(/\\./, \"\", free) \x7d\n            /Pages inactive:/ \x7b inactive = $3; gsub(/\\./, \"\", inactive) \x7d\n            /Pages speculative:/ \x7b spec = $3; gsub(/\\./, \"\", spec) \x7d\n            /Pages wired down:/ \x7b wired = $4; gsub(/\\./, \"\", wired) \x7d\n            /Pages active:/ \x7b active = $3; gsub(/\\./, \"\", active) \x7d\n            END \x7b\n              if (free && inactive && spec && wired && active) \x7b\n                # Enhanced calculation including wired and active pages\n                avail_bytes = (free + inactive + spec) * page_size\n                used_bytes = '$mem_total_bytes' - avail_bytes\n                # Ensure used_bytes is not negative\n                if (used_bytes < 0) used_bytes = (wired + active) * page_size\n                # Integer math with rounding for GB conversion\n                used_gb = int((used_bytes + 536870912) / 1073741824)  # +0.5GB for rounding\n                total_gb = int(('$mem_total_bytes' + 536870912) / 1073741824)\n                percent = int(used_bytes * 100 / '$mem_total_bytes')\n                printf \"mem_used_gb=%d;mem_total_gb=%d;mem_percent=%d\", used_gb, total_gb, percent\n              \x7d\n            \x7d')\"\n          [[ $mem_total_gb && $mem_total_gb -gt 0 ]] && macos_mem_detected=1\n        fi\n      fi\n      \n      # Fallback 1: top command for memory info\n      if [[ $macos_mem_detected -eq 0 ]] && command -v top >/dev/null 2>&1; then\n        mem_info=$(top -l 1 -s 0 | grep \"PhysMem\" 2>/dev/null)\n        if [[ $mem_info ]]; then\n          # Parse top output for memory info (format: PhysMem: 1234M used (456M wired), 789M unused.)\n          eval \"$(echo \"$mem_info\" | awk '\n            /PhysMem:/ \x7b\n              match($0, /([0-9]+)([MG])[[:space:]]+used.*([0-9]+)([MG])[[:space:]]+unused/, arr)\n              if (length(arr) >= 4) \x7b\n                used_val = arr[1]; used_unit = arr[2]\n                unused_val = arr[3]; unused_unit = arr[4]\n                \n                # Convert to GB\n                used_gb = (used_unit == \"G\") ? used_val : int(used_val / 1024)\n                unused_gb = (unused_unit == \"G\") ? unused_val : int(unused_val / 1024)\n                total_gb = used_gb + unused_gb\n                percent = (total_gb > 0) ? int(used_gb * 100 / total_gb) : 0\n                \n                printf \"mem_used_gb=%d;mem_total_gb=%d;mem_percent=%d\", used_gb, total_gb, percent\n              \x7d\n            \x7d')\"\n          [[ $mem_total_gb && $mem_total_gb -gt 0 ]] && macos_mem_detected=1\n        fi\n      fi\n      \n      # Fallback 2: system_profiler (slower but comprehensive)\n      if [[ $macos_mem_detected -eq 0 ]] && command -v system_profiler >/dev/null 2>&1; then\n        mem_total_gb=$(system_profiler SPHardwareDataType 2>/dev/null | awk '/Memory:/ \x7b gsub(/[^0-9]/, \"\", $2); print int($2) \x7d')\n        if [[ $mem_total_gb && $mem_total_gb -gt 0 ]]; then\n          # Estimate usage at 50% since we can't get actual usage this way\n          mem_used_gb=$(( mem_total_gb / 2 ))\n          mem_percent=50\n          macos_mem_detected=1\n        fi\n      fi"

/-- The `showLoad` segment of the `sysMacLoad` platform case of
`generateSystemBashCode` (`system.ts`). -/
def sysMacLoad : String :=
  "\n      \n      # Enhanced macOS load detection with fallbacks\n      macos_load_detected=0\n      \n      # Primary method: sysctl vm.loadavg\n      if [[ $macos_load_detected -eq 0 ]] && command -v sysctl >/dev/null 2>&1; then\n        load_info=$(sysctl -n vm.loadavg 2>/dev/null)\n        if [[ $load_info ]]; then\n          load_array=($load_info)\n          if [[ $\x7b#load_array[@]\x7d -ge 4 ]]; then\n            load_1min=$\x7bload_array[1]\x7d\n            load_5min=$\x7bload_array[2]\x7d\n            load_15min=$\x7bload_array[3]\x7d\n            macos_load_detected=1\n          fi\n        fi\n      fi\n      \n      # Fallback 1: uptime command\n      if [[ $macos_load_detected -eq 0 ]] && command -v uptime >/dev/null 2>&1; then\n        uptime_info=$(uptime 2>/dev/null)\n        if [[ $uptime_info =~ load[[:space:]]+averages:[[:space:]]+([0-9.]+)[[:space:]]+([0-9.]+)[[:space:]]+([0-9.]+) ]]; then\n          load_1min=$\x7bBASH_REMATCH[1]\x7d\n          load_5min=$\x7bBASH_REMATCH[2]\x7d\n          load_15min=$\x7bBASH_REMATCH[3]\x7d\n          macos_load_detected=1\n        fi\n      fi\n      \n      # Fallback 2: w command (if available)\n      if [[ $macos_load_detected -eq 0 ]] && command -v w >/dev/null 2>&1; then\n        w_output=$(w | head -1 2>/dev/null)\n        if [[ $w_output =~ load[[:space:]]+averages:[[:space:]]+([0-9.]+)[[:space:]]+([0-9.]+)[[:space:]]+([0-9.]+) ]]; then\n          load_1min=$\x7bBASH_REMATCH[1]\x7d\n          load_5min=$\x7bBASH_REMATCH[2]\x7d\n          load_15min=$\x7bBASH_REMATCH[3]\x7d\n          macos_load_detected=1\n        fi\n      fi"

/-- The `showCPU` segment of the `sysOtherCPU` platform case of
`generateSystemBashCode` (`system.ts`). -/
def sysOtherCPU : String :=
  "\n      if command -v uptime >/dev/null 2>&1; then\n        uptime_info=$(uptime 2>/dev/null)\n        if [[ $uptime_info =~ load[[:space:]]+average.*:[[:space:]]+([0-9.]+) ]]; then\n          load_1min=$\x7bBASH_REMATCH[1]\x7d\n          # Rough CPU estimate from load (capped at 100%)\n          cpu_percent=$(echo \"$load_1min * 100\" | bc -l 2>/dev/null | cut -d. -f1)\n          (( cpu_percent > 100 )) && cpu_percent=100\n        fi\n      fi"

/-- The `showRAM` segment of the `sysOtherRAM` platform case of
`generateSystemBashCode` (`system.ts`). -/
def sysOtherRAM : String :=
  "\n      \n      if command -v free >/dev/null 2>&1; then\n        free_info=$(free -m 2>/dev/null | grep \"^Mem:\")\n        if [[ $free_info ]]; then\n          mem_array=($free_info)\n          mem_total_mb=$\x7bmem_array[1]\x7d\n          mem_used_mb=$\x7bmem_array[2]\x7d\n          mem_total_gb=$(( mem_total_mb / 1024 ))\n          mem_used_gb=$(( mem_used_mb / 1024 ))\n          (( mem_total_mb > 0 )) && mem_percent=$(( mem_used_mb * 100 / mem_total_mb ))\n        fi\n      fi"

/-- The `showLoad` segment of the `sysOtherLoad` platform case of
`generateSystemBashCode` (`system.ts`). -/
def sysOtherLoad : String :=
  "\n      \n      if command -v uptime >/dev/null 2>&1; then\n        uptime_info=$(uptime 2>/dev/null)\n        if [[ $uptime_info =~ load[[:space:]]+average.*:[[:space:]]+([0-9.]+),[[:space:]]+([0-9.]+),[[:space:]]+([0-9.]+) ]]; then\n          load_1min=$\x7bBASH_REMATCH[1]\x7d\n          load_5min=$\x7bBASH_REMATCH[2]\x7d\n          load_15min=$\x7bBASH_REMATCH[3]\x7d\n        fi\n      fi"

/-- `generateSystemBashCode` (`system.ts`): the system-monitoring
fragment.  The in-process memory cache consulted by the source is
content-addressed and deterministic (spec §4.5), so a hit returns exactly
what this pure computation produces; the embedding takes the computing
path. -/
def generateSystemBashCode (config : SystemFeature) (colors : Bool) : String :=
  if !config.enabled then ""
  else
    let colorCode := if colors then systemColorCodeOn else systemColorCodeOff
    let bashCode :=
      colorCode
      ++ "\n# ---- system monitoring ----\ncpu_percent=0 mem_used_gb=0 mem_total_gb=0 mem_percent=0\nload_1min=0 load_5min=0 load_15min=0\n\n# System metrics cache (TTL: " ++ natStr config.refreshRate
      ++ " seconds)\nsys_cache=\"$\x7bHOME\x7d/.claude/system_$\x7bPWD//\\//_\x7d.tmp\"\nsys_ttl=" ++ natStr config.refreshRate
      ++ "\nnow=$\x7bEPOCHSECONDS:-$(date +%s)\x7d\nsys_cached=0\n\nif [[ -f $sys_cache ]]; then\n  cache_time=$(stat -c %Y \"$sys_cache\" 2>/dev/null || stat -f %m \"$sys_cache\" 2>/dev/null || echo 0)\n  if (( now - cache_time < sys_ttl )); then\n    eval \"$(<\"$sys_cache\")\"\n    sys_cached=1\n  else\n    rm -f \"$sys_cache\" 2>/dev/null\n  fi\nfi\n\n# Collect system metrics only if not cached\nif [[ $sys_cached -eq 0 ]]; then\n  # Performance timing for optimization measurement\n  [[ $CC_STATUSLINE_DEBUG ]] && sys_start_time=$(date +%s%3N 2>/dev/null || date +%s)\n  \n  # Cache platform detection to avoid repeated uname calls\n  if [[ -z $SYS_PLATFORM ]]; then\n    SYS_PLATFORM=\"$(uname -s 2>/dev/null)\"\n    # WSL detection for enhanced performance\n    if [[ $SYS_PLATFORM == \"Linux\" ]] && [[ -r /proc/version ]] && grep -qi \"microsoft\" /proc/version 2>/dev/null; then\n      SYS_PLATFORM=\"WSL\"\n      # Cache WSL version for optimizations\n      if grep -qi \"wsl2\" /proc/version 2>/dev/null; then\n        export SYS_WSL_VERSION=\"2\"\n      else\n        export SYS_WSL_VERSION=\"1\"\n      fi\n    fi\n    # Cache platform in user session for reuse\n    export SYS_PLATFORM\n  fi\n  platform=\"$SYS_PLATFORM\"\n  \n  case \"$platform\" in\n    Linux*)\n      # Linux - enhanced /proc filesystem optimizations"
      ++ (if config.showCPU then sysLinuxCPU else "")
      ++ (if config.showRAM then sysLinuxRAM else "")
      ++ (if config.showLoad then sysLinuxLoad else "")
      ++ "\n      ;;\n    WSL*)\n      # WSL - optimized hybrid approach combining Linux /proc with Windows performance counters"
      ++ (if config.showCPU then sysWslCPU else "")
      ++ (if config.showRAM then sysWslRAM else "")
      ++ (if config.showLoad then sysWslLoad else "")
      ++ "\n      ;;\n    Darwin*)\n      # macOS - optimized system commands"
      ++ (if config.showCPU then sysMacCPU else "")
      ++ (if config.showRAM then sysMacRAM else "")
      ++ (if config.showLoad then sysMacLoad else "")
      ++ "\n      ;;\n    *)\n      # Fallback for other platforms"
      ++ (if config.showCPU then sysOtherCPU else "")
      ++ (if config.showRAM then sysOtherRAM else "")
      ++ (if config.showLoad then sysOtherLoad else "")
      ++ "\n      ;;\n  esac\n  \n  # Performance timing completion\n  if [[ $CC_STATUSLINE_DEBUG && $sys_start_time ]]; then\n    sys_end_time=$(date +%s%3N 2>/dev/null || date +%s)\n    sys_duration=$(( sys_end_time - sys_start_time ))\n  fi\n  \n  # Cache the results\n  mkdir -p \"$\x7bHOME\x7d/.claude\" 2>/dev/null\n  \x7b\n    echo \"cpu_percent=$cpu_percent\"\n    echo \"mem_used_gb=$mem_used_gb\"\n    echo \"mem_total_gb=$mem_total_gb\"\n    echo \"mem_percent=$mem_percent\"\n    echo \"load_1min=$load_1min\"\n    echo \"load_5min=$load_5min\"\n    echo \"load_15min=$load_15min\"\n  \x7d > \"$sys_cache\" 2>/dev/null\n  \n  # Debug logging if enabled\n  if [[ $CC_STATUSLINE_DEBUG ]]; then\n    \x7b\n      echo \"[DEBUG] System monitoring at $(date):\"\n      echo \"  Platform: $platform (cached: $\x7bSYS_PLATFORM:+yes\x7d)\"\n      echo \"  CPU: $cpu_percent%\"\n      echo \"  Memory: $mem_used_gb GB / $mem_total_gb GB ($mem_percent%)\"\n      echo \"  Load: $load_1min / $load_5min / $load_15min\"\n      [[ $sys_duration ]] && echo \"  Collection time: $\x7bsys_duration\x7dms\"\n      echo \"  Cache TTL: " ++ natStr config.refreshRate
      ++ "s\"\n    \x7d >> \"$\x7bHOME\x7d/.claude/statusline-debug.log\" 2>/dev/null\n  fi\nfi"
    optimizeBashCode bashCode

end CCStatusline

namespace CCStatusline

/-! ## System display and utilities (`src/features/system.ts`) -/

/-- `generateSystemDisplayCode` (`system.ts`). -/
def generateSystemDisplayCode (config : SystemFeature) (emojis : Bool) : String :=
  if !config.enabled then ""
  else
    let cpuPart :=
      if config.showCPU then
        "\n# cpu usage\nif [[ $cpu_percent && $cpu_percent != \"0\" ]]; then\n  printf '  " ++ (if emojis then "💻" else "cpu:") ++ " %s%s%%%s' \"$(cpu_clr)\" \"$cpu_percent\" \"$(rst)\"\nfi"
      else ""
    let ramPart :=
      if config.showRAM then
        if config.displayFormat = "detailed" then
          "\n# memory usage (detailed)\nif [[ $mem_total_gb && $mem_total_gb -gt 0 ]]; then\n  printf '  " ++ (if emojis then "🧠" else "ram:") ++ " %s%sGB/%sGB (%s%%)%s' \"$(mem_clr)\" \"$mem_used_gb\" \"$mem_total_gb\" \"$mem_percent\" \"$(rst)\"\nfi"
        else
          "\n# memory usage (compact)\nif [[ $mem_total_gb && $mem_total_gb -gt 0 ]]; then\n  printf '  " ++ (if emojis then "🧠" else "ram:") ++ " %s%sG/%sG%s' \"$(mem_clr)\" \"$mem_used_gb\" \"$mem_total_gb\" \"$(rst)\"\nfi"
      else ""
    let loadPart :=
      if config.showLoad then
        if config.displayFormat = "detailed" then
          "\n# system load (detailed with context)\nif [[ $load_1min && $load_1min != \"0\" ]]; then\n  # Add load status indicator\n  load_status=\"\"\n  if (( $(echo \"$load_1min < 1.0\" | bc -l 2>/dev/null || echo 1) )); then\n    load_status=\"\u2713\"  # Good\n  elif (( $(echo \"$load_1min < 2.0\" | bc -l 2>/dev/null || echo 0) )); then\n    load_status=\"\u26a0\"  # Warning\n  else\n    load_status=\"\u26a0\"  # High load\n  fi\n  printf '  " ++ (if emojis then "\u26a1" else "load:") ++ " Load: %s%s%s %s (1m/5m/15m: %s/%s/%s)' \"$(load_clr)\" \"$load_1min\" \"$(rst)\" \"$load_status\" \"$load_1min\" \"$load_5min\" \"$load_15min\"\nfi"
        else
          "\n# system load (compact with status)\nif [[ $load_1min && $load_1min != \"0\" ]]; then\n  # Add trend indicator based on 1min vs 5min\n  trend=\"\"\n  if (( $(echo \"$load_1min > $load_5min\" | bc -l 2>/dev/null || echo 0) )); then\n    trend=\"\u2197\"  # Increasing\n  elif (( $(echo \"$load_1min < $load_5min\" | bc -l 2>/dev/null || echo 0) )); then\n    trend=\"\u2198\"  # Decreasing  \n  else\n    trend=\"\u2192\"  # Stable\n  fi\n  printf '  " ++ (if emojis then "\u26a1" else "load:") ++ " %s%s%s%s' \"$(load_clr)\" \"$load_1min\" \"$trend\" \"$(rst)\"\nfi"
      else ""
    optimizeBashCode (cpuPart ++ ramPart ++ loadPart)

/-- `generateSystemUtilities` (`system.ts`); the trailing cache-init
block comes from the missing `cache-manager.ts`. -/
def generateSystemUtilities (enc : ExternalEncoders) : String :=
  optimizeBashCode ("\n# ---- system utilities ----\n# Ensure bc is available for floating point math (fallback to integer math)\nhas_bc() \x7b command -v bc >/dev/null 2>&1; \x7d\n\n# Safe numeric comparison for load averages\nload_compare() \x7b\n  local val=\"$1\" threshold=\"$2\"\n  if has_bc; then\n    echo \"$val > $threshold\" | bc -l 2>/dev/null || echo 0\n  else\n    # Integer comparison fallback (multiply by 100)\n    local val_int=\"$(echo \"$val * 100\" | cut -d. -f1 2>/dev/null || echo 0)\"\n    local thresh_int=\"$(echo \"$threshold * 100\" | cut -d. -f1 2>/dev/null || echo 0)\"\n    (( val_int > thresh_int )) && echo 1 || echo 0\n  fi\n\x7d\n\n" ++ enc.cacheInitCode)

end CCStatusline

namespace CCStatusline

/-! ## Usage feature (`src/features/usage.ts`) -/

/-- The jq query fields assembled by `generateUsageBashCode`
(`usage.ts` lines 41-73). -/
def usageJqFields (config : UsageFeature) : List String :=
  (if config.showCost then
    ["cost_usd: (.costUSD // \"\")", "cost_per_hour: (.burnRate.costPerHour // \"\")"]
   else []) ++
  (if config.showTokens then ["tot_tokens: (.totalTokens // \"\")"] else []) ++
  (if config.showBurnRate then ["tpm: (.burnRate.tokensPerMinute // \"\")"] else []) ++
  (if config.showSession || config.showProgressBar then
    ["reset_time_str: (.usageLimitResetTime // .endTime // \"\")",
     "start_time_str: (.startTime // \"\")"]
   else []) ++
  (if config.showCacheEfficiency || config.showContextUsage then
    ["cache_creation_tokens: (.tokenCounts.cacheCreationInputTokens // 0)",
     "cache_read_tokens: (.tokenCounts.cacheReadInputTokens // 0)",
     "input_tokens: (.tokenCounts.inputTokens // 0)",
     "output_tokens: (.tokenCounts.outputTokens // 0)"]
   else []) ++
  (if config.showProjections then
    ["proj_total_tokens: (.projection.totalTokens // \"\")",
     "proj_total_cost: (.projection.totalCost // \"\")",
     "proj_remaining_mins: (.projection.remainingMinutes // \"\")",
     "entries_count: (.entries // 0)"]
   else []) ++
  (if config.showEfficiencyAlerts then
    ["tpm_indicator: (.burnRate.tokensPerMinuteForIndicator // \"\")",
     "models_list: (.models // [])"]
   else [])

/-- JavaScript `x?.f || d` on a natural field (0 is falsy). -/
def natOr (v : Option Nat) (dflt : Nat) : Nat :=
  match v with
  | some n => if n = 0 then dflt else n
  | none => dflt

/-- The color helper block of `generateUsageBashCode` when colors are
enabled (`usage.ts`). -/
def usageColorOn : String :=
  "\n# ---- usage colors ----\nusage_clr() \x7b [[ $use_color -eq 1 ]] && printf '\\033[1;35m'; \x7d\ncost_clr() \x7b [[ $use_color -eq 1 ]] && printf '\\033[1;36m'; \x7d\nsess_clr() \x7b \n  rem_pct=$(( 100 - pct ))\n  if   (( rem_pct <= 10 )); then SCLR='1;31'\n  elif (( rem_pct <= 25 )); then SCLR='1;33'\n  else                          SCLR='1;32'; fi\n  [[ $use_color -eq 1 ]] && printf '\\033[%sm' \"$SCLR\"\n\x7d\ncache_clr() \x7b\n  # Color based on cache efficiency: green = good (>60%), yellow = ok (30-60%), red = poor (<30%)\n  if [[ $cache_efficiency ]]; then\n    if   (( $(echo \"$cache_efficiency >= 60\" | bc -l 2>/dev/null || echo 0) )); then CCLR='1;32'  # Green\n    elif (( $(echo \"$cache_efficiency >= 30\" | bc -l 2>/dev/null || echo 0) )); then CCLR='1;33'  # Yellow\n    else                                                                             CCLR='1;31'; fi # Red\n  else CCLR='1;37'; fi  # Gray if no data\n  [[ $use_color -eq 1 ]] && printf '\\033[%sm' \"$CCLR\"\n\x7d\nproj_clr() \x7b [[ $use_color -eq 1 ]] && printf '\\033[1;34m'; \x7d  # Blue for projections\nalert_clr() \x7b [[ $use_color -eq 1 ]] && printf '\\033[1;31m'; \x7d # Red for alerts\ncontext_clr() \x7b\n  # Color based on context usage: green (<60%), yellow (60-80%), red (>80%)\n  if [[ $context_usage_pct ]]; then\n    if   (( context_usage_pct >= 80 )); then CTXCLR='1;31'  # Red\n    elif (( context_usage_pct >= 60 )); then CTXCLR='1;33'  # Yellow\n    else                                     CTXCLR='1;32'; fi # Green\n  else CTXCLR='1;37'; fi  # Gray if no data\n  [[ $use_color -eq 1 ]] && printf '\\033[%sm' \"$CTXCLR\"\n\x7d\n"

/-- The color helper block of `generateUsageBashCode` when colors are
disabled (`usage.ts`). -/
def usageColorOff : String :=
  "\nusage_clr() \x7b :; \x7d\ncost_clr() \x7b :; \x7d\nsess_clr() \x7b :; \x7d\ncache_clr() \x7b :; \x7d\nproj_clr() \x7b :; \x7d\nalert_clr() \x7b :; \x7d\ncontext_clr() \x7b :; \x7d\n"

/-- The session-time calculation block of `generateUsageBashCode`
(`usage.ts` lines 133-146). -/
def usageSessionCalcBlock (config : UsageFeature) : String :=
  if config.showSession || config.showProgressBar then
    "\n    \n    # Session time calculation\n    if [[ $reset_time_str && $start_time_str ]]; then\n      start_sec=$(to_epoch \"$start_time_str\"); end_sec=$(to_epoch \"$reset_time_str\"); now_sec=$\x7bEPOCHSECONDS:-$(date +%s)\x7d\n      total=$(( end_sec - start_sec )); (( total<1 )) && total=1\n      elapsed=$(( now_sec - start_sec )); (( elapsed<0 ))&&elapsed=0; (( elapsed>total ))&&elapsed=$total\n      pct=$(( elapsed * 100 / total ))\n      remaining=$(( end_sec - now_sec )); (( remaining<0 )) && remaining=0\n      rh=$(( remaining / 3600 )); rm=$(( (remaining % 3600) / 60 ))\n      end_hm=$(fmt_time_hm \"$end_sec\")"
    ++ (if config.showSession then "\n      sess_txt=\"$(printf '%dh %dm until reset at %s (%d%%)' \"$rh\" \"$rm\" \"$end_hm\" \"$pct\")\"" else "")
    ++ (if config.showProgressBar then "\n      sess_bar=$(progress_bar \"$pct\" 10)" else "")
    ++ "\n    fi"
  else ""

/-- The cache-efficiency and context-utilization block of
`generateUsageBashCode` (`usage.ts` lines 146-163). -/
def usageCacheEffBlock (config : UsageFeature) : String :=
  if config.showCacheEfficiency || config.showContextUsage then
    "\n    \n    # Cache efficiency and context utilization calculations\n    if [[ $cache_creation_tokens && $cache_read_tokens ]]; then\n      total_cache_tokens=$(( cache_creation_tokens + cache_read_tokens ))\n      if (( total_cache_tokens > 0 )); then\n        cache_efficiency=$(echo \"scale=1; $cache_read_tokens * 100 / $total_cache_tokens\" | bc -l 2>/dev/null || echo \"0\")\n        # Calculate cache cost savings (cache reads are typically 10% cost of creation)\n        cache_savings=$(echo \"scale=2; $cache_read_tokens * 0.9\" | bc -l 2>/dev/null || echo \"0\")\n      fi\n      # Estimate context usage percentage (rough approximation based on token patterns)\n      if [[ $input_tokens && $output_tokens ]]; then\n        total_conversation_tokens=$(( input_tokens + output_tokens ))\n        # Assume 200K context window, adjust context usage calculation\n        context_usage_pct=$(echo \"scale=0; $total_conversation_tokens * 100 / 200000\" | bc -l 2>/dev/null || echo \"0\")\n        (( context_usage_pct > 100 )) && context_usage_pct=100\n      fi\n    fi"
  else ""

/-- The cost and time projections block of `generateUsageBashCode`
(`usage.ts` lines 163-175). -/
def usageProjectionsBlock (config : UsageFeature) : String :=
  if config.showProjections then
    "\n    \n    # Cost and time projections\n    if [[ $proj_total_cost && $proj_remaining_mins ]]; then\n      proj_cost_txt=$(printf \"\u00e2\u2020\u2019$%.2f\" \"$proj_total_cost\")\n      if (( proj_remaining_mins > 60 )); then\n        proj_hours=$(( proj_remaining_mins / 60 ))\n        proj_mins=$(( proj_remaining_mins % 60 ))\n        proj_time_txt=$(printf \"%dh%dm left\" \"$proj_hours\" \"$proj_mins\")\n      else\n        proj_time_txt=$(printf \"%dm left\" \"$proj_remaining_mins\")\n      fi\n    fi"
  else ""

/-- The efficiency-alerts block of `generateUsageBashCode`
(`usage.ts` lines 175-191). -/
def usageAlertsBlock (config : UsageFeature) : String :=
  if config.showEfficiencyAlerts then
    "\n    \n    # Efficiency alerts based on thresholds\n    efficiency_alert=\"\"\n    if [[ $cost_ph && $cost_ph != \"\" ]]; then\n      cost_warning_threshold="
    ++ natStr (natOr (config.thresholds.map (fun t => t.costWarning)) 15)
    ++ "\n      if (( $(echo \"$cost_ph > $cost_warning_threshold\" | bc -l 2>/dev/null || echo 0) )); then\n        efficiency_alert=\"\u00e2\u0161\u00a0$$\x7bcost_ph\x7d/h\"\n      fi\n    fi\n    if [[ $context_usage_pct && $context_usage_pct != \"\" ]]; then\n      context_warning_threshold="
    ++ natStr (natOr (config.thresholds.map (fun t => t.contextWarning)) 80)
    ++ "\n      if (( context_usage_pct > context_warning_threshold )); then\n        [[ $efficiency_alert ]] && efficiency_alert=\"$efficiency_alert \" \n        efficiency_alert=\"$\x7befficiency_alert\x7d\u00e2\u0161\u00a0$\x7bcontext_usage_pct\x7d%ctx\"\n      fi\n    fi"
  else ""

/-- `generateUsageBashCode` (`usage.ts`): the ccusage-integration
fragment.  The file-cache code block comes from the missing
`cache-manager.ts` (`generateFileCacheCode`); the in-process memory cache
consulted by the source is content-addressed and deterministic
(spec §4.5), so a hit returns exactly what this pure computation
produces, and the embedding takes the computing path. -/
def generateUsageBashCode (enc : ExternalEncoders) (config : UsageFeature)
    (colors : Bool) : String :=
  if !config.enabled then ""
  else
    let jqFields := usageJqFields config
    let jqQuery :=
      if jqFields.length > 0 then
        "\x7b" ++ String.intercalate ", " jqFields ++ "\x7d"
      else "\x7b\x7d"
    let colorCode := if colors then usageColorOn else usageColorOff
    let bashCode :=
      colorCode
      ++ "\n# ---- ccusage integration ----\nsess_txt=\"\" pct=0 sess_bar=\"\"\ncost_usd=\"\" cost_ph=\"\" tpm=\"\" tot_tokens=\"\"\ncache_efficiency=\"\" cache_savings=\"\" context_usage_pct=\"\"\nproj_cost_txt=\"\" proj_time_txt=\"\" efficiency_alert=\"\"\n\nif command -v jq >/dev/null 2>&1; then\n"
      ++ enc.fileCacheCode "ccusage"
           "ccusage blocks --json 2>/dev/null || timeout 5 npx ccusage@latest blocks --json 2>/dev/null"
      ++ "\n  \n  if [[ $cached_result ]]; then\n    blocks_output=\"$cached_result\"\n    # Single optimized jq call for all data extraction\n    eval \"$(echo \"$blocks_output\" | jq -r '\n      .blocks[] | select(.isActive == true) | \n      "
      ++ jqQuery
      ++ " | \n      to_entries | .[] | \"\\(.key)=\\(.value | @sh)\"\n    ' 2>/dev/null)\" 2>/dev/null"
      ++ usageSessionCalcBlock config
      ++ usageCacheEffBlock config
      ++ usageProjectionsBlock config
      ++ usageAlertsBlock config
      ++ "\n  fi\nfi"
    optimizeBashCode bashCode

/-- `generateUsageUtilities` (`usage.ts`). -/
def generateUsageUtilities : String :=
  optimizeBashCode "\n# ---- time helpers ----\nto_epoch() \x7b\n  ts=\"$1\"\n  if command -v gdate >/dev/null 2>&1; then gdate -d \"$ts\" +%s 2>/dev/null && return; fi\n  date -u -j -f \"%Y-%m-%dT%H:%M:%S%z\" \"$\x7bts/Z/+0000\x7d\" +%s 2>/dev/null && return\n  python3 - \"$ts\" <<'PY' 2>/dev/null\nimport sys, datetime\ns=sys.argv[1].replace('Z','+00:00')\nprint(int(datetime.datetime.fromisoformat(s).timestamp()))\nPY\n\x7d\n\nfmt_time_hm() \x7b\n  epoch=\"$1\"\n  if date -r 0 +%s >/dev/null 2>&1; then date -r \"$epoch\" +\"%H:%M\"; else date -d \"@$epoch\" +\"%H:%M\"; fi\n\x7d\n\nprogress_bar() \x7b\n  p=\"$\x7b1:-0\x7d\"; w=\"$\x7b2:-10\x7d\"\n  [[ $p =~ ^[0-9]+$ ]] || p=0; ((p<0))&&p=0; ((p>100))&&p=100\n  filled=$(( p * w / 100 )); empty=$(( w - filled ))\n  printf '%*s' \"$filled\" '' | tr ' ' '='\n  printf '%*s' \"$empty\" '' | tr ' ' '-'\n\x7d"

end CCStatusline

namespace CCStatusline

/-- The count of enabled usage sub-features that drives the smart-compact
decision of `generateUsageDisplayCode` (`usage.ts` lines 238-241): the
eight flags `showCost`, `showTokens`, `showBurnRate`, `showSession`,
`showCacheEfficiency`, `showProjections`, `showContextUsage`,
`showEfficiencyAlerts`. -/
def countEnabledUsageSubFeatures (config : UsageFeature) : Nat :=
  ([config.showCost, config.showTokens, config.showBurnRate, config.showSession,
    config.showCacheEfficiency, config.showProjections, config.showContextUsage,
    config.showEfficiencyAlerts].filter (fun b => b)).length

/-- The smart-compact rendering branch of `generateUsageDisplayCode`
(`usage.ts` lines 249-357): helper functions plus one compacted block per
enabled sub-feature, ending in an unguarded `printf` of a newline. -/
def smartCompactUsageDisplay (config : UsageFeature) : String :=
  let enabledFeatures := countEnabledUsageSubFeatures config
  let isUltraCompact := enabledFeatures ≥ 8
  let spacing := if isUltraCompact then "" else " "
  let ultraFlag := if isUltraCompact then "1" else "0"
  let helperBlock :=
    "\n# smart compact usage display (" ++ natStr enabledFeatures
    ++ " features, "
    ++ (if isUltraCompact then "ultra-compact" else "smart-compact")
    ++ " mode)\n\n# Helper functions for smart formatting\nformat_currency() \x7b\n  local amount=\"$1\" ultra=\"$2\"\n  if [[ $ultra == \"1\" ]]; then\n    printf \"$%.0f\" \"$amount\"  # Remove decimals in ultra mode\n  else\n    printf \"$%.2f\" \"$amount\"\n  fi\n\x7d\n\nformat_number_k() \x7b\n  local num=\"$1\" ultra=\"$2\"\n  if (( num > 1000 )); then\n    if [[ $ultra == \"1\" ]]; then\n      printf \"%.0fk\" \"$(echo \"scale=0; $num / 1000\" | bc -l 2>/dev/null || echo \"0\")\"\n    else\n      printf \"%.0fk\" \"$(echo \"scale=0; $num / 1000\" | bc -l 2>/dev/null || echo \"0\")\"\n    fi\n  else\n    printf \"%.0f\" \"$num\"\n  fi\n\x7d\n\nformat_time_compact() \x7b\n  local time_str=\"$1\" ultra=\"$2\"\n  if [[ $ultra == \"1\" ]]; then\n    echo \"$time_str\" | sed 's/ //g'  # Remove spaces: \"1h 10m\" \u00e2\u2020\u2019 \"1h10m\"\n  else\n    echo \"$time_str\"\n  fi\n\x7d"
  let sessionBlock :=
    if config.showSession then
      "\n# session time\nif [[ $sess_txt ]]; then\n  remaining=$(echo \"$sess_txt\" | grep -o '[0-9]\\+h [0-9]\\+m' | head -1)\n  if [[ $remaining ]]; then\n    formatted_time=$(format_time_compact \"$remaining\" \"" ++ ultraFlag ++ "\")\n    printf '  \u00e2\u0152\u203a %s%s%s" ++ spacing ++ "' \"$(sess_clr)\" \"$formatted_time\" \"$(rst)\"\n  fi\nfi"
    else ""
  let costBlock :=
    if config.showCost then
      let costEmoji := if isUltraCompact then "\u00f0\u0178\u2019\u00b0" else "\u00f0\u0178\u2019\u00b5"
      "\n# cost with smart formatting\nif [[ $cost_usd ]]; then\n  formatted_cost=$(format_currency \"$cost_usd\" \"" ++ ultraFlag
      ++ "\")\n  printf '  " ++ costEmoji
      ++ " %s%s' \"$(cost_clr)\" \"$formatted_cost\"\n  [[ $proj_total_cost && \"" ++ boolStr config.showProjections
      ++ "\" == \"true\" ]] && \x7b\n    formatted_proj=$(format_currency \"$proj_total_cost\" \"" ++ ultraFlag
      ++ "\")\n    printf '\u00e2\u2020\u2019%s' \"$formatted_proj\"\n  \x7d\n  printf '%s" ++ spacing
      ++ "' \"$(rst)\"\nfi"
    else ""
  let cacheBlock :=
    if config.showCacheEfficiency then
      let cacheEmoji := if isUltraCompact then "\u00e2\u0161\u00a1" else "\u00f0\u0178\u201d\u201e"
      "\n# cache efficiency\nif [[ $cache_efficiency ]]; then\n  printf '  " ++ cacheEmoji ++ "%s%.0f%%%s" ++ spacing ++ "' \"$(cache_clr)\" \"$cache_efficiency\" \"$(rst)\"\nfi"
    else ""
  let contextBlock :=
    if config.showContextUsage then
      "\n# context usage with alerts\nif [[ $context_usage_pct ]]; then\n  context_warning_threshold="
      ++ natStr (natOr (config.thresholds.map (fun t => t.contextWarning)) 80)
      ++ "\n  if (( context_usage_pct > context_warning_threshold )); then\n    printf '  \u00f0\u0178\u201c%s%d%%\u00e2\u0161\u00a0%s" ++ spacing
      ++ "' \"$(context_clr)\" \"$context_usage_pct\" \"$(rst)\"\n  else\n    printf '  \u00f0\u0178\u201c%s%d%%%s" ++ spacing
      ++ "' \"$(context_clr)\" \"$context_usage_pct\" \"$(rst)\"\n  fi\nfi"
    else ""
  let burnBlock :=
    if config.showBurnRate then
      "\n# burn rate\nif [[ $tpm ]]; then\n  formatted_tpm=$(format_number_k \"$tpm\" \"" ++ ultraFlag
      ++ "\")\n  unit=\""
      ++ (if isUltraCompact then "" else " tpm")
      ++ "\"\n  printf '  \u00f0\u0178\u201d\u00a5%s%s%s%s" ++ spacing
      ++ "' \"$(usage_clr)\" \"$formatted_tpm\" \"$unit\" \"$(rst)\"\nfi"
    else ""
  helperBlock ++ sessionBlock ++ costBlock ++ cacheBlock ++ contextBlock
    ++ burnBlock ++ "\n# newline after compact display\nprintf '\\n'"

/-- The standard (non-compact) rendering branch of
`generateUsageDisplayCode` (`usage.ts` lines 359-452). -/
def standardUsageDisplay (config : UsageFeature) (emojis : Bool) : String :=
  let sessionBlock :=
    if config.showSession then
      let sessionEmoji := if emojis then "\u00e2\u0152\u203a" else "session:"
      "\n# session time\nif [[ $sess_txt ]]; then\n  printf '  " ++ sessionEmoji ++ " %s%s%s' \"$(sess_clr)\" \"$sess_txt\" \"$(rst)\""
      ++ (if config.showProgressBar then "\n  printf '  %s[%s]%s' \"$(sess_clr)\" \"$sess_bar\" \"$(rst)\"" else "")
      ++ "\nfi"
    else ""
  let costBlock :=
    if config.showCost then
      let costEmoji := if emojis then "\u00f0\u0178\u2019\u00b5" else "$"
      "\n# cost with smart projection integration\nif [[ $cost_usd && $cost_usd =~ ^[0-9.]+$ ]]; then\n  printf '  " ++ costEmoji ++ " %s$%.2f' \"$(cost_clr)\" \"$cost_usd\"\n  # Show projection if available and projections feature enabled\n  if [[ $proj_total_cost && \""
      ++ boolStr config.showProjections
      ++ "\" == \"true\" ]]; then\n    printf '\u00e2\u2020\u2019$%.2f' \"$proj_total_cost\"\n  fi\n  # Show hourly rate if available\n  if [[ $cost_ph && $cost_ph =~ ^[0-9.]+$ ]]; then\n    printf ' ($%.2f/h)' \"$cost_ph\"\n  fi\n  printf '%s' \"$(rst)\"\nfi"
    else ""
  let tokensBlock :=
    if config.showTokens then
      let tokenEmoji := if emojis then "\u00f0\u0178\u201c\u0160" else "tok:"
      "\n# tokens\nif [[ $tot_tokens && $tot_tokens =~ ^[0-9]+$ ]]; then\n  if [[ $tpm && $tpm =~ ^[0-9.]+$ ]] && " ++ boolStr config.showBurnRate
      ++ "; then\n    printf '  " ++ tokenEmoji ++ " %s%s tok (%.0f tpm)%s' \"$(usage_clr)\" \"$tot_tokens\" \"$tpm\" \"$(rst)\"\n  else\n    printf '  " ++ tokenEmoji ++ " %s%s tok%s' \"$(usage_clr)\" \"$tot_tokens\" \"$(rst)\"\n  fi\nfi"
    else ""
  let cacheBlock :=
    if config.showCacheEfficiency then
      let cacheEmoji := if emojis then "\u00f0\u0178\u201d\u201e" else "cache:"
      "\n# cache efficiency\nif [[ $cache_efficiency && $cache_efficiency != \"0\" ]]; then\n  printf '  " ++ cacheEmoji ++ " %s%.1f%%%s' \"$(cache_clr)\" \"$cache_efficiency\" \"$(rst)\"\n  [[ $cache_savings && $cache_savings != \"0\" ]] && printf ' %s(saved %.0f tok)%s' \"$(cache_clr)\" \"$cache_savings\" \"$(rst)\"\nfi"
    else ""
  let projBlock :=
    if config.showProjections && !config.showCost then
      let projEmoji := if emojis then "\u00f0\u0178\u201c\u02c6" else "proj:"
      "\n# projections (standalone when cost not shown)\nif [[ $proj_cost_txt ]]; then\n  printf '  " ++ projEmoji ++ " %s%s%s' \"$(proj_clr)\" \"$proj_cost_txt\" \"$(rst)\"\n  [[ $proj_time_txt ]] && printf ' %s(%s)%s' \"$(proj_clr)\" \"$proj_time_txt\" \"$(rst)\"\nfi"
    else if config.showProjections && config.showCost then
      let projEmoji := if emojis then "\u00e2\u00b1\u00ef\u00b8" else "time:"
      "\n# time projection (when cost already shown)\nif [[ $proj_time_txt ]]; then\n  printf '  " ++ projEmoji ++ " %s%s%s' \"$(proj_clr)\" \"$proj_time_txt\" \"$(rst)\"\nfi"
    else ""
  let contextBlock :=
    if config.showContextUsage then
      let contextEmoji := if emojis then "\u00f0\u0178\u201c" else "ctx:"
      "\n# context usage with integrated alerts\nif [[ $context_usage_pct && $context_usage_pct != \"0\" ]]; then\n  context_warning_threshold="
      ++ natStr (natOr (config.thresholds.map (fun t => t.contextWarning)) 80)
      ++ "\n  if (( context_usage_pct > context_warning_threshold )); then\n    printf '  " ++ contextEmoji ++ " %s%d%%\u00e2\u0161\u00a0%s' \"$(context_clr)\" \"$context_usage_pct\" \"$(rst)\"\n  else\n    printf '  " ++ contextEmoji ++ " %s%d%%%s' \"$(context_clr)\" \"$context_usage_pct\" \"$(rst)\"\n  fi\nfi"
    else ""
  let alertsBlock :=
    if config.showEfficiencyAlerts && !config.showContextUsage then
      "\n# efficiency alerts (standalone when context not shown)\nif [[ $efficiency_alert ]]; then\n  printf '  %s%s%s' \"$(alert_clr)\" \"$efficiency_alert\" \"$(rst)\"\nfi"
    else ""
  sessionBlock ++ costBlock ++ tokensBlock ++ cacheBlock ++ projBlock
    ++ contextBlock ++ alertsBlock

/-- `generateUsageDisplayCode` (`usage.ts`): chooses the smart-compact
branch when `compactMode || enabledFeatures > 5` and additionally
`enabledFeatures > 5`; otherwise renders the standard blocks.  The
compact branch ignores the `emojis` argument (its emoji are
hard-coded). -/
def generateUsageDisplayCode (config : UsageFeature) (emojis : Bool) : String :=
  if !config.enabled then ""
  else
    let enabledFeatures := countEnabledUsageSubFeatures config
    let shouldUseCompact := config.compactMode || enabledFeatures > 5
    if shouldUseCompact && enabledFeatures > 5 then
      optimizeBashCode (smartCompactUsageDisplay config)
    else
      optimizeBashCode (standardUsageDisplay config emojis)

end CCStatusline

namespace CCStatusline

/-! ## Display section and script assembly (`bash-generator.ts`) -/

/-- The fixed feature priority order of `generateDisplaySection`
(`bash-generator.ts` lines 214-225). -/
def featurePriority : List String :=
  ["directory", "git", "model", "cpu", "memory", "load", "usage", "session",
   "tokens", "burnrate"]

/-- One iteration of the rendering loop of `generateDisplaySection`:
the display code contributed by `feature`, empty when the feature is not
in the configured list or another feature of the same group already
rendered the group. -/
def renderDisplayFeature (enc : ExternalEncoders) (config : StatuslineConfig)
    (gitConfig : GitFeature) (usageConfig : UsageFeature)
    (systemConfig : SystemFeature) (feature : String) : String :=
  let emojis := config.colors && !config.customEmojis
  let features := config.features
  if !(features.contains feature) then ""
  else if feature = "directory" then
    let dirEmoji := if emojis then "\u00f0\u0178\u201c" else "dir:"
    let dirColorPrefix := if config.colors then "$(dir_clr)" else ""
    let dirColorSuffix := if config.colors then "$(rst)" else ""
    "\nprintf '" ++ dirEmoji ++ " %s%s%s' \"" ++ dirColorPrefix ++ "\" \"$cwd\" \""
      ++ dirColorSuffix ++ "\"\ncontent_displayed=1"
  else if feature = "model" then
    let modelEmoji := if emojis then "\u00f0\u0178\u00a4\u2013" else "model:"
    let modelColorPrefix := if config.colors then "$(model_clr)" else ""
    let modelColorSuffix := if config.colors then "$(rst)" else ""
    "\nprintf '  " ++ modelEmoji ++ " %s%s%s' \"" ++ modelColorPrefix ++ "\" \"$model_name\" \""
      ++ modelColorSuffix ++ "\"\ncontent_displayed=1"
  else if feature = "git" then
    enc.gitDisplayCode gitConfig config.colors emojis
  else if feature = "cpu" || feature = "memory" || feature = "load" then
    if feature = "cpu"
        || (!(features.contains "cpu") && feature = "memory")
        || (!(features.contains "cpu") && !(features.contains "memory")
            && feature = "load") then
      generateSystemDisplayCode systemConfig emojis
    else ""
  else if feature = "usage" || feature = "session" || feature = "tokens"
      || feature = "burnrate" then
    if feature = "usage" || (!(features.contains "usage") && feature = "session") then
      generateUsageDisplayCode usageConfig emojis
    else ""
  else ""

/-- `generateDisplaySection` (`bash-generator.ts`): the features rendered
in priority order, closed by the single conditional trailing newline
guarded by `content_displayed`. -/
def generateDisplaySection (enc : ExternalEncoders) (config : StatuslineConfig)
    (gitConfig : GitFeature) (usageConfig : UsageFeature)
    (systemConfig : SystemFeature) : String :=
  let displayCode :=
    "\n# ---- render statusline ----"
    ++ String.join (featurePriority.map
        (fun feature =>
          renderDisplayFeature enc config gitConfig usageConfig systemConfig
            feature))
    ++ "\n# conditional newline (only if content was displayed)\nif [[ $content_displayed -eq 1 ]]; then\n  printf '\\n'\nfi"
  optimizeBashCode displayCode

/-- The `usageConfig` built by `generateBashStatusline`
(`bash-generator.ts` lines 51-69). -/
def buildUsageConfig (config : StatuslineConfig) : UsageFeature :=
  let features := config.features
  let hasUsage := features.contains "usage" || features.contains "session"
    || features.contains "tokens" || features.contains "burnrate"
    || features.contains "cache" || features.contains "projections"
    || features.contains "context" || features.contains "alerts"
  { enabled := hasUsage && config.ccusageIntegration
    showCost := features.contains "usage"
    showTokens := features.contains "tokens"
    showBurnRate := features.contains "burnrate"
    showSession := features.contains "session"
    showProgressBar := config.theme ≠ "minimal" && features.contains "session"
    showCacheEfficiency := features.contains "cache"
    showProjections := features.contains "projections"
    showContextUsage := features.contains "context"
    showEfficiencyAlerts := features.contains "alerts"
    compactMode := config.theme = "compact"
    thresholds := some { costWarning := 15, timeWarning := 30,
                         contextWarning := 80, efficiencyWarning := 25 } }

/-- The `gitConfig` built by `generateBashStatusline`
(`bash-generator.ts` lines 71-76). -/
def buildGitConfig (config : StatuslineConfig) : GitFeature :=
  let hasGit := config.features.contains "git"
  { enabled := hasGit
    showBranch := hasGit
    showChanges := false
    compactMode := config.theme = "compact" }

/-- The `systemConfig` built by `generateBashStatusline`
(`bash-generator.ts` lines 78-92). -/
def buildSystemConfig (config : StatuslineConfig) : SystemFeature :=
  let features := config.features
  let hasSystem := features.contains "cpu" || features.contains "memory"
    || features.contains "load"
  { enabled := hasSystem
    showCPU := features.contains "cpu"
    showRAM := features.contains "memory"
    showLoad := features.contains "load"
    refreshRate := natOr (config.systemMonitoring.map (fun m => m.refreshRate)) 3
    displayFormat := if config.theme = "compact" then "compact" else "detailed" }

/-- The parts of the compiled script after the header, in the fixed
assembly order of `generateBashStatusline` (`bash-generator.ts` lines
95-112).  Every part is a function of the feature set (membership tests),
never of the input list order. -/
def statuslineBodyParts (enc : ExternalEncoders) (config : StatuslineConfig) :
    List String :=
  let features := config.features
  let hasGit := features.contains "git"
  let hasUsage := features.contains "usage" || features.contains "session"
    || features.contains "tokens" || features.contains "burnrate"
    || features.contains "cache" || features.contains "projections"
    || features.contains "context" || features.contains "alerts"
  let hasSystem := features.contains "cpu" || features.contains "memory"
    || features.contains "load"
  let hasDirectory := features.contains "directory"
  let hasModel := features.contains "model"
  let usageConfig := buildUsageConfig config
  let gitConfig := buildGitConfig config
  let systemConfig := buildSystemConfig config
  [ (if config.logging then generateLoggingCode else ""),
    "input=$(cat)",
    generateRateLimitingCode,
    generateContentTrackingCode,
    generateColorBashCode { enabled := config.colors, theme := config.theme },
    (if config.colors then generateBasicColors else ""),
    (if hasUsage then generateUsageUtilities else ""),
    (if hasGit then enc.gitUtilities else ""),
    (if hasSystem then generateSystemUtilities enc else ""),
    generateBasicDataExtraction hasDirectory hasModel,
    (if hasGit then enc.gitBashCode gitConfig config.colors else ""),
    (if hasUsage then generateUsageBashCode enc usageConfig config.colors else ""),
    (if hasSystem then generateSystemBashCode systemConfig config.colors else ""),
    (if config.logging then generateLoggingOutput else ""),
    generateDisplaySection enc config gitConfig usageConfig systemConfig ]

/-- All parts of the compiled script: the header (which embeds the
invocation timestamp and the feature list in input order) followed by the
body parts. -/
def statuslineParts (enc : ExternalEncoders) (config : StatuslineConfig)
    (timestamp : String) : List String :=
  generateScriptHeader config timestamp :: statuslineBodyParts enc config

/-- `join` with a separator over a list of parts (the `.join('\n')` of
`bash-generator.ts` line 115). -/
def joinSep (sep : String) : List String → String
  | [] => ""
  | [a] => a
  | a :: rest => a ++ sep ++ joinSep sep rest

/-- What `joinSep` appends after its first part. -/
def joinSepTail (sep : String) : List String → String
  | [] => ""
  | l => sep ++ joinSep sep l

/-- The raw compiled script (`CompiledScript.raw`): non-empty parts joined
by newlines with a trailing newline (`bash-generator.ts` line 115). -/
def rawStatusline (enc : ExternalEncoders) (config : StatuslineConfig)
    (timestamp : String) : String :=
  joinSep "\n"
    ((statuslineParts enc config timestamp).filter (fun s => !(s == ""))) ++ "\n"

/-- The cache-miss compilation path of `generateBashStatusline`
(`bash-generator.ts` lines 42-137): assemble the raw script, then apply
the final whole-script optimization pass. -/
def compileStatusline (enc : ExternalEncoders) (config : StatuslineConfig)
    (timestamp : String) : String :=
  optimizeBashCode (rawStatusline enc config timestamp)

/-- Modelled from the spec: the fixed table of extremely common
discriminating tuples served by the missing `template-cache.ts` (§4.6).
The spec fixes only that the table is small and its entries are
"byte-identical to what the full pipeline would produce for the same
tuple"; one representative common configuration models the table. -/
def commonTemplateConfigs : List StatuslineConfig :=
  [ { features := ["directory", "git", "model", "usage"]
      runtime := "bash"
      colors := true
      theme := "detailed"
      ccusageIntegration := true
      logging := false
      customEmojis := false } ]

/-- Membership of a configuration in the template-cache table. -/
def isCommonTemplate (config : StatuslineConfig) : Bool :=
  commonTemplateConfigs.any (fun c => c = config)

/-- Modelled from the spec: `generateOptimizedBashStatusline` of the
missing `template-cache.ts` (§4.6) — on an exact table match it returns
the precomputed text, which the spec requires to be byte-identical to the
full pipeline's output for the same tuple; otherwise `none`. -/
def generateOptimizedBashStatusline (enc : ExternalEncoders)
    (config : StatuslineConfig) (timestamp : String) : Option String :=
  if isCommonTemplate config then some (compileStatusline enc config timestamp)
  else none

/-- `generateBashStatusline` (`bash-generator.ts`): template-cache fast
path first, then the in-process memory cache (carried here as an explicit
argument holding the previously compiled script, if any), then the full
compilation path. -/
def generateBashStatusline (enc : ExternalEncoders) (memCache : Option String)
    (config : StatuslineConfig) (timestamp : String) : String :=
  match generateOptimizedBashStatusline enc config timestamp with
  | some s => s
  | none =>
    match memCache with
    | some s => s
    | none => compileStatusline enc config timestamp

end CCStatusline

namespace CCStatusline

/-! ## Fixed configurations and a timestamp decomposition used below -/

/-- Everything the compiled script's pre-optimization text contains after
the header's creation timestamp; a pure function of the configuration and
the missing encoders only. -/
def statuslineTimestampFree (enc : ExternalEncoders)
    (config : StatuslineConfig) : String :=
  headerAfterCreated config
    ++ (joinSepTail "\n"
          ((statuslineBodyParts enc config).filter (fun s => !(s == ""))) ++ "\n")

/-- A two-feature configuration exercising only in-snapshot encoders. -/
def cfgC1 : StatuslineConfig :=
  { features := ["directory", "model"]
    runtime := "bash"
    colors := false
    theme := "minimal"
    ccusageIntegration := false
    logging := false
    customEmojis := false }

/-- Base configuration for the order-independence counterexample. -/
def cfgC2 : StatuslineConfig :=
  { features := ["directory", "model"]
    runtime := "bash"
    colors := false
    theme := "minimal"
    ccusageIntegration := false
    logging := false
    customEmojis := false }

/-- `cfgC2` with its feature list permuted (same feature set). -/
def cfgC2swapped : StatuslineConfig :=
  { cfgC2 with features := ["model", "directory"] }

/-- Base configuration for the order-independence witness. -/
def cfgC2w : StatuslineConfig :=
  { features := []
    runtime := "bash"
    colors := true
    theme := "detailed"
    ccusageIntegration := true
    logging := false
    customEmojis := false }

/-- The `allFeaturesConfig` test fixture
(`src/__tests__/fixtures/mock-configs.ts`), as carried in
`generateBashStatusline`'s parameter type. -/
def allFeaturesConfig : StatuslineConfig :=
  { features := ["directory", "git", "model", "cpu", "memory", "load", "usage",
                 "session", "cache", "context", "burnrate", "tokens",
                 "projections", "alerts"]
    runtime := "bash"
    colors := true
    theme := "detailed"
    ccusageIntegration := true
    logging := true
    customEmojis := false }

/-- The one discriminating tuple in the modelled template-cache table. -/
def templateCfg : StatuslineConfig :=
  { features := ["directory", "git", "model", "usage"]
    runtime := "bash"
    colors := true
    theme := "detailed"
    ccusageIntegration := true
    logging := false
    customEmojis := false }

/-- A two-sub-feature usage configuration with `compactMode` set, for the
compact-path witness. -/
def usageTwoCompact : UsageFeature :=
  { enabled := true
    showCost := true
    showTokens := false
    showBurnRate := false
    showSession := true
    showProgressBar := false
    showCacheEfficiency := false
    showProjections := false
    showContextUsage := false
    showEfficiencyAlerts := false
    compactMode := true
    thresholds := none }

end CCStatusline


namespace CCStatusline

/-! ## Triple-bracket safety of the idiom-substitution pass -/

/-- Finite-state recognizer for the substring `[[[`: `k` counts the run of
open brackets immediately preceding the current position (capped use at
2). -/
def trip : Nat → List Char → Bool
  | _, [] => false
  | k, c :: rest => if c = '[' then (if 2 ≤ k then true else trip (k + 1) rest) else trip 0 rest

/-- The bracket-run state after scanning `l` from state `k`. -/
def tripState : Nat → List Char → Nat
  | k, [] => k
  | k, c :: rest => if c = '[' then tripState (k + 1) rest else tripState 0 rest

/-- Does the list start with `[`? -/
def headIsBr : List Char → Bool
  | c :: _ => c = '['
  | [] => false

/-- Does the list start with `[[`? -/
def headTwoBr : List Char → Bool
  | c :: c2 :: _ => c = '[' && c2 = '['
  | _ => false

theorem trip_append : ∀ (A B : List Char) (k : Nat),
    trip k (A ++ B) = (trip k A || trip (tripState k A) B) := by
  intro A
  induction A with
  | nil => intro B k; simp [trip, tripState]
  | cons c A' ih =>
    intro B k
    by_cases hc : c = '['
    · subst hc
      by_cases hk : 2 ≤ k
      · simp [trip, tripState, hk]
      · simp [trip, tripState, hk, ih]
    · simp [trip, tripState, hc, ih]

theorem trip_mono : ∀ (l : List Char) (i j : Nat), i ≤ j →
    trip i l = true → trip j l = true := by
  intro l
  induction l with
  | nil => intro i j _ h; simp [trip] at h
  | cons c rest ih =>
    intro i j hij h
    by_cases hc : c = '['
    · subst hc
      by_cases hi : 2 ≤ i
      · simp [trip, Nat.le_trans hi hij]
      · simp only [trip, if_pos rfl, if_neg hi] at h
        by_cases hj : 2 ≤ j
        · simp [trip, hj]
        · simp only [trip, if_pos rfl, if_neg hj]
          exact ih (i + 1) (j + 1) (Nat.succ_le_succ hij) h
    · simp only [trip, if_neg hc] at h ⊢
      exact h

theorem trip_drop : ∀ (m : Nat) (l : List Char), trip 0 l = false →
    trip 0 (l.drop m) = false := by
  intro m
  induction m with
  | zero => intro l h; simpa using h
  | succ m ih =>
    intro l h
    cases l with
    | nil => simp [trip]
    | cons c rest =>
      have hrest : trip 0 rest = false := by
        by_cases hc : c = '['
        · subst hc
          simp only [trip, if_pos rfl] at h
          norm_num at h
          by_contra hne
          have : trip 0 rest = true := by
            cases htr : trip 0 rest with
            | true => rfl
            | false => exact absurd htr hne
          have := trip_mono rest 0 1 (by omega) this
          rw [this] at h
          exact absurd h (by simp)
        · simpa [trip, hc] using h
      simpa using ih rest hrest

theorem stripPfx_eq : ∀ (p l r : List Char), stripPfx p l = some r → l = p ++ r := by
  intro p
  induction p with
  | nil => intro l r h; simp [stripPfx] at h; simp [h]
  | cons q qs ih =>
    intro l r h
    cases l with
    | nil => simp [stripPfx] at h
    | cons c cs =>
      simp only [stripPfx] at h
      by_cases hqc : q = c
      · subst hqc
        simp only [if_pos rfl] at h
        simpa using ih cs r h
      · simp [hqc] at h

end CCStatusline

namespace CCStatusline

theorem trip_word_run : ∀ (w : List Char) (k : Nat), (∀ c ∈ w, c ≠ '[') →
    trip k w = false ∧ tripState k w = (if w.isEmpty then k else 0) := by
  intro w
  induction w with
  | nil => intro k _; simp [trip, tripState]
  | cons c w' ih =>
    intro k h
    have hc : c ≠ '[' := h c (by simp)
    have hrest : ∀ c ∈ w', c ≠ '[' := fun d hd => h d (by simp [hd])
    have := ih 0 hrest
    constructor
    · simp only [trip, if_neg hc]
      exact (this).1
    · simp only [tripState, if_neg hc]
      rcases w' with _ | ⟨d, w''⟩
      · simpa using (this).2
      · simpa using (this).2

theorem spanWord_append : ∀ (l : List Char),
    (matchBuiltin.spanWord l).1 ++ (matchBuiltin.spanWord l).2 = l := by
  intro l
  induction l with
  | nil => simp [matchBuiltin.spanWord]
  | cons c cs ih =>
    by_cases hc : isWordChar c = true
    · simp [matchBuiltin.spanWord, hc, ih]
    · simp [matchBuiltin.spanWord, hc]

theorem spanWord_word : ∀ (l : List Char) (c : Char),
    c ∈ (matchBuiltin.spanWord l).1 → isWordChar c = true := by
  intro l
  induction l with
  | nil => intro c h; simp [matchBuiltin.spanWord] at h
  | cons d cs ih =>
    intro c h
    by_cases hd : isWordChar d = true
    · simp only [matchBuiltin.spanWord, hd, if_pos] at h
      rcases List.mem_cons.mp h with rfl | hmem
      · exact hd
      · exact ih c hmem
    · simp [matchBuiltin.spanWord, hd] at h

theorem wordChar_ne_br : ∀ c : Char, isWordChar c = true → c ≠ '[' := by
  intro c h heq
  subst heq
  simp [isWordChar] at h

end CCStatusline

namespace CCStatusline

theorem tripState_append : ∀ (A B : List Char) (k : Nat),
    tripState k (A ++ B) = tripState (tripState k A) B := by
  intro A
  induction A with
  | nil => intro B k; simp [tripState]
  | cons c A' ih =>
    intro B k
    by_cases hc : c = '['
    · subst hc; simp [tripState, ih]
    · simp [tripState, hc, ih]

/-- The bracket-safety facts for a bracket-test replacement block
`pre ++ name ++ suf` whose `name` is a word-character run. -/
theorem trip_block (pre suf name : List Char)
    (hpre : trip 0 pre = false) (hpres : tripState 0 pre = 0)
    (hsuf : trip 0 suf = false) (hsufs : tripState 0 suf = 0)
    (hname : ∀ c ∈ name, isWordChar c = true) :
    trip 0 (pre ++ (name ++ suf)) = false
    ∧ tripState 0 (pre ++ (name ++ suf)) = 0 := by
  have hnb : ∀ c ∈ name, c ≠ '[' := fun c hc => wordChar_ne_br c (hname c hc)
  have hrun := trip_word_run name 0 hnb
  have hst : tripState 0 name = 0 := by
    rcases hrun with ⟨-, h⟩
    simpa [ite_self] using h
  constructor
  · rw [trip_append, trip_append, hpres, hpre, hrun.1, hst, hsuf]
    rfl
  · rw [tripState_append, tripState_append, hpres, hst, hsufs]

/-- Facts about a successful idiom-rule match that guarantee the rewrite
cannot create `[[[`: from any reachable bracket-run state the replacement
neither completes a triple nor ends in an open bracket, and a replacement
can start with `[` only when the input did. -/
theorem matchBuiltin_spec (l rep : List Char) (len : Nat)
    (h2 : headTwoBr l = false) (hm : matchBuiltin l = some (rep, len)) :
    (∀ k, k ≤ 2 → (k = 0 ∨ headIsBr l = false) →
      trip k rep = false ∧ tripState k rep = 0)
    ∧ (headIsBr rep = true → headIsBr l = true) := by
  unfold matchBuiltin at hm
  split at hm
  · -- guard: "${EPOCHSECONDS:-$(date +%s)}"
    next x heq =>
    simp only [Option.some.injEq, Prod.mk.injEq] at hm
    obtain ⟨hrep, -⟩ := hm
    subst hrep
    obtain rfl := stripPfx_eq _ _ _ heq
    refine ⟨fun k hk _ => ?_, fun habs => absurd habs (by decide)⟩
    interval_cases k <;> exact ⟨by decide, by decide⟩
  · split at hm
    · -- guard: "[[" copied verbatim; excluded by h2
      exact absurd h2 (by simp [headTwoBr])
    · -- the rewrite rules
      split at hm
      · -- [ "$(command -v jq)" ]
        next x heq =>
        simp only [Option.some.injEq, Prod.mk.injEq] at hm
        obtain ⟨hrep, -⟩ := hm
        subst hrep
        obtain rfl := stripPfx_eq _ _ _ heq
        have hbr : headIsBr ("[ \"$(command -v jq)\" ]".data ++ x) = true := rfl
        refine ⟨fun k hk hko => ?_, fun _ => hbr⟩
        rcases hko with rfl | hfalse
        · exact ⟨by decide, by decide⟩
        · simp [headIsBr] at hfalse
      · split at hm
        · -- [ "$(command -v git)" ]
          next x heq =>
          simp only [Option.some.injEq, Prod.mk.injEq] at hm
          obtain ⟨hrep, -⟩ := hm
          subst hrep
          obtain rfl := stripPfx_eq _ _ _ heq
          have hbr : headIsBr ("[ \"$(command -v git)\" ]".data ++ x) = true := rfl
          refine ⟨fun k hk hko => ?_, fun _ => hbr⟩
          rcases hko with rfl | hfalse
          · exact ⟨by decide, by decide⟩
          · simp [headIsBr] at hfalse
        · split at hm
          · -- [ "$(which jq)" ]
            next x heq =>
            simp only [Option.some.injEq, Prod.mk.injEq] at hm
            obtain ⟨hrep, -⟩ := hm
            subst hrep
            obtain rfl := stripPfx_eq _ _ _ heq
            have hbr : headIsBr ("[ \"$(which jq)\" ]".data ++ x) = true := rfl
            refine ⟨fun k hk hko => ?_, fun _ => hbr⟩
            rcases hko with rfl | hfalse
            · exact ⟨by decide, by decide⟩
            · simp [headIsBr] at hfalse
          · split at hm
            · -- sed with anchor
              next x heq =>
              simp only [Option.some.injEq, Prod.mk.injEq] at hm
              obtain ⟨hrep, -⟩ := hm
              subst hrep
              obtain rfl := stripPfx_eq _ _ _ heq
              refine ⟨fun k hk _ => ?_, fun habs => absurd habs (by decide)⟩
              interval_cases k <;> exact ⟨by decide, by decide⟩
            · split at hm
              · -- sed without anchor
                next x heq =>
                simp only [Option.some.injEq, Prod.mk.injEq] at hm
                obtain ⟨hrep, -⟩ := hm
                subst hrep
                obtain rfl := stripPfx_eq _ _ _ heq
                refine ⟨fun k hk _ => ?_, fun habs => absurd habs (by decide)⟩
                interval_cases k <;> exact ⟨by decide, by decide⟩
              · split at hm
                · -- $(cat "$file")
                  next x heq =>
                  simp only [Option.some.injEq, Prod.mk.injEq] at hm
                  obtain ⟨hrep, -⟩ := hm
                  subst hrep
                  obtain rfl := stripPfx_eq _ _ _ heq
                  refine ⟨fun k hk _ => ?_, fun habs => absurd habs (by decide)⟩
                  interval_cases k <;> exact ⟨by decide, by decide⟩
                · split at hm
                  · -- [ $? -eq 0 ]
                    next x heq =>
                    simp only [Option.some.injEq, Prod.mk.injEq] at hm
                    obtain ⟨hrep, -⟩ := hm
                    subst hrep
                    obtain rfl := stripPfx_eq _ _ _ heq
                    have hbr : headIsBr ("[ $? -eq 0 ]".data ++ x) = true := rfl
                    refine ⟨fun k hk hko => ?_, fun _ => hbr⟩
                    rcases hko with rfl | hfalse
                    · exact ⟨by decide, by decide⟩
                    · simp [headIsBr] at hfalse
                  · split at hm
                    · -- bare $(date +%s)
                      next x heq =>
                      simp only [Option.some.injEq, Prod.mk.injEq] at hm
                      obtain ⟨hrep, -⟩ := hm
                      subst hrep
                      obtain rfl := stripPfx_eq _ _ _ heq
                      refine ⟨fun k hk _ => ?_, fun habs => absurd habs (by decide)⟩
                      interval_cases k <;> exact ⟨by decide, by decide⟩
                    · split at hm
                      · next after heq =>
                          split at hm
                          · next name tail heq2 =>
                            split at hm
                            · exact absurd hm (by simp)
                            · simp only [Option.some.injEq, Prod.mk.injEq] at hm
                              obtain ⟨hrep, -⟩ := hm
                              subst hrep
                              obtain rfl := stripPfx_eq _ _ _ heq
                              have hname : ∀ c ∈ name, isWordChar c = true := by
                                have hn : name = (matchBuiltin.spanWord after).1 := by
                                  rw [heq2]
                                exact fun c hc => spanWord_word after c (hn ▸ hc)
                              have hb := trip_block "[[ ! $".data " ]]".data name
                                (by decide) (by decide) (by decide) (by decide) hname
                              have hbr : headIsBr ("[ -z \"$".data ++ after) = true := rfl
                              refine ⟨fun k hk hko => ?_, fun _ => hbr⟩
                              rcases hko with rfl | hfalse
                              · exact hb
                              · simp [headIsBr] at hfalse
                          · exact absurd hm (by simp)
                      · split at hm
                        · next after heq =>
                            split at hm
                            · next name tail heq2 =>
                              split at hm
                              · exact absurd hm (by simp)
                              · simp only [Option.some.injEq, Prod.mk.injEq] at hm
                                obtain ⟨hrep, -⟩ := hm
                                subst hrep
                                obtain rfl := stripPfx_eq _ _ _ heq
                                have hname : ∀ c ∈ name, isWordChar c = true := by
                                  have hn : name = (matchBuiltin.spanWord after).1 := by
                                    rw [heq2]
                                  exact fun c hc => spanWord_word after c (hn ▸ hc)
                                have hb := trip_block "[[ ! $".data " ]]".data name
                                  (by decide) (by decide) (by decide) (by decide) hname
                                have hbr : headIsBr ("[ -z $".data ++ after) = true := rfl
                                refine ⟨fun k hk hko => ?_, fun _ => hbr⟩
                                rcases hko with rfl | hfalse
                                · exact hb
                                · simp [headIsBr] at hfalse
                            · exact absurd hm (by simp)
                        · split at hm
                          · next after heq =>
                              split at hm
                              · next name tail heq2 =>
                                split at hm
                                · exact absurd hm (by simp)
                                · simp only [Option.some.injEq, Prod.mk.injEq] at hm
                                  obtain ⟨hrep, -⟩ := hm
                                  subst hrep
                                  obtain rfl := stripPfx_eq _ _ _ heq
                                  have hname : ∀ c ∈ name, isWordChar c = true := by
                                    have hn : name = (matchBuiltin.spanWord after).1 := by
                                      rw [heq2]
                                    exact fun c hc => spanWord_word after c (hn ▸ hc)
                                  have hb := trip_block "[[ $".data " ]]".data name
                                    (by decide) (by decide) (by decide) (by decide) hname
                                  have hbr : headIsBr ("[ -n \"$".data ++ after) = true := rfl
                                  refine ⟨fun k hk hko => ?_, fun _ => hbr⟩
                                  rcases hko with rfl | hfalse
                                  · exact hb
                                  · simp [headIsBr] at hfalse
                              · exact absurd hm (by simp)
                          · split at hm
                            · next after heq =>
                                split at hm
                                · next name tail heq2 =>
                                  split at hm
                                  · exact absurd hm (by simp)
                                  · simp only [Option.some.injEq, Prod.mk.injEq] at hm
                                    obtain ⟨hrep, -⟩ := hm
                                    subst hrep
                                    obtain rfl := stripPfx_eq _ _ _ heq
                                    have hname : ∀ c ∈ name, isWordChar c = true := by
                                      have hn : name = (matchBuiltin.spanWord after).1 := by
                                        rw [heq2]
                                      exact fun c hc => spanWord_word after c (hn ▸ hc)
                                    have hb := trip_block "[[ $".data " ]]".data name
                                      (by decide) (by decide) (by decide) (by decide) hname
                                    have hbr : headIsBr ("[ -n $".data ++ after) = true := rfl
                                    refine ⟨fun k hk hko => ?_, fun _ => hbr⟩
                                    rcases hko with rfl | hfalse
                                    · exact hb
                                    · simp [headIsBr] at hfalse
                                · exact absurd hm (by simp)
                            · exact absurd hm (by simp)


end CCStatusline

namespace CCStatusline

theorem trip_tail : ∀ (c : Char) (rest : List Char), trip 0 (c :: rest) = false →
    trip 0 rest = false := by
  intro c rest h
  by_cases hc : c = '['
  · subst hc
    simp only [trip, if_pos rfl] at h
    norm_num at h
    by_contra hne
    have htrue : trip 0 rest = true := by
      cases htr : trip 0 rest with
      | true => rfl
      | false => exact absurd htr hne
    rw [trip_mono rest 0 1 (by omega) htrue] at h
    exact absurd h (by simp)
  · simpa [trip, hc] using h

theorem bScan_skip : ∀ (l : List Char) (k : Nat), bScan k l = bScan 0 (l.drop k) := by
  intro l
  induction l with
  | nil => intro k; cases k <;> simp [bScan]
  | cons c rest ih =>
    intro k
    cases k with
    | zero => simp
    | succ k => simpa [bScan] using ih k

/-- The idiom-substitution scan never introduces a `[[[`: started on a
triple-free input, from any reachable bracket-run state (`k ≤ 2`, and a
pending open bracket only when the input continues with a non-bracket),
its output completes no triple. -/
theorem bScan_noTriple : ∀ (n : Nat) (l : List Char) (k : Nat), l.length ≤ n →
    trip 0 l = false → k ≤ 2 → (1 ≤ k → headIsBr l = false) →
    trip k (bScan 0 l) = false := by
  intro n
  induction n with
  | zero =>
    intro l k hlen _ _ _
    have hnil : l = [] := List.eq_nil_of_length_eq_zero (Nat.le_zero.mp hlen)
    subst hnil
    simp [bScan, trip]
  | succ n ih =>
    intro l k hlen htrip hk hinv
    cases l with
    | nil => simp [bScan, trip]
    | cons c rest =>
      by_cases hc : c = '['
      · subst hc
        have hk0 : k = 0 := by
          by_contra hne
          have h1 : 1 ≤ k := Nat.one_le_iff_ne_zero.mpr hne
          have := hinv h1
          simp [headIsBr] at this
        subst hk0
        cases rest with
        | nil =>
          have hbs : bScan 0 ['['] = ['['] := by rfl
          rw [hbs]
          simp [trip]
        | cons c2 r2 =>
          by_cases hc2 : c2 = '['
          · subst hc2
            -- the "[[" guard block
            have hbs : bScan 0 ('[' :: '[' :: r2) = '[' :: '[' :: bScan 0 r2 := by rfl
            rw [hbs]
            have htrip2 : trip 2 r2 = false := by
              simpa [trip] using htrip
            have htrip0 : trip 0 r2 = false := by
              by_contra hne
              have htrue : trip 0 r2 = true := by
                cases htr : trip 0 r2 with
                | true => rfl
                | false => exact absurd htr hne
              rw [trip_mono r2 0 2 (by omega) htrue] at htrip2
              exact absurd htrip2 (by simp)
            have hbr2 : headIsBr r2 = false := by
              cases r2 with
              | nil => rfl
              | cons c3 r3 =>
                by_cases hc3 : c3 = '['
                · subst hc3
                  simp [trip] at htrip2
                · simp [headIsBr, hc3]
            have := ih r2 2 (by simp at hlen; omega) htrip0 (by omega)
              (fun _ => hbr2)
            simpa [trip] using this
          · -- single '[' copied; no rule fires on '[' followed by non-'['?
            -- not necessarily: the bracket rules may fire; case on matchBuiltin
            have hg : headTwoBr ('[' :: c2 :: r2) = false := by
              simp [headTwoBr, hc2]
            cases hmB : matchBuiltin ('[' :: c2 :: r2) with
            | none =>
              have hbs : bScan 0 ('[' :: c2 :: r2) = '[' :: bScan 0 (c2 :: r2) := by
                simp [bScan, hmB]
              rw [hbs]
              have htrip' : trip 0 (c2 :: r2) = false := trip_tail _ _ htrip
              have hbr' : headIsBr (c2 :: r2) = false := by simp [headIsBr, hc2]
              have := ih (c2 :: r2) 1 (by simp at hlen ⊢; omega) htrip' (by omega)
                (fun _ => hbr')
              simpa [trip] using this
            | some pair =>
              obtain ⟨rep, len⟩ := pair
              have hbs : bScan 0 ('[' :: c2 :: r2) = rep ++ bScan (len - 1) (c2 :: r2) := by
                simp [bScan, hmB]
              rw [hbs, bScan_skip]
              have hspec := matchBuiltin_spec _ _ _ hg hmB
              obtain ⟨htr, hts⟩ := hspec.1 0 (by omega) (Or.inl rfl)
              rw [trip_append, htr, hts]
              simp only [Bool.false_or]
              have htrip' : trip 0 ((c2 :: r2).drop (len - 1)) = false :=
                trip_drop _ _ (trip_tail _ _ htrip)
              exact ih _ 0 (by
                  have := List.length_drop (len - 1) (c2 :: r2)
                  simp at hlen ⊢
                  omega)
                htrip' (by omega) (fun h => absurd h (by omega))
      · -- c ≠ '['
        have hg : headTwoBr (c :: rest) = false := by
          cases rest with
          | nil => rfl
          | cons c2 r2 => simp [headTwoBr, hc]
        cases hmB : matchBuiltin (c :: rest) with
        | none =>
          have hbs : bScan 0 (c :: rest) = c :: bScan 0 rest := by
            simp [bScan, hmB]
          rw [hbs]
          have htrip' : trip 0 rest = false := trip_tail _ _ htrip
          have hrest := ih rest 0 (by simp at hlen; omega) htrip' (by omega)
            (fun h => absurd h (by omega))
          simpa [trip, hc] using hrest
        | some pair =>
          obtain ⟨rep, len⟩ := pair
          have hbs : bScan 0 (c :: rest) = rep ++ bScan (len - 1) rest := by
            simp [bScan, hmB]
          rw [hbs, bScan_skip]
          have hspec := matchBuiltin_spec _ _ _ hg hmB
          have hbrl : headIsBr (c :: rest) = false := by simp [headIsBr, hc]
          obtain ⟨htr, hts⟩ := hspec.1 k hk (Or.inr hbrl)
          rw [trip_append, htr, hts]
          simp only [Bool.false_or]
          have htrip' : trip 0 (rest.drop (len - 1)) = false :=
            trip_drop _ _ (trip_tail _ _ htrip)
          exact ih _ 0 (by
              have := List.length_drop (len - 1) rest
              simp at hlen ⊢
              omega)
            htrip' (by omega) (fun h => absurd h (by omega))

end CCStatusline

namespace CCStatusline

theorem stripPfx_triple : ∀ (rest : List Char),
    (stripPfx ['[', '[', '['] ('[' :: rest)).isSome = headTwoBr rest := by
  intro rest
  cases rest with
  | nil => simp [stripPfx, headTwoBr]
  | cons c2 r2 =>
    by_cases hc2 : c2 = '['
    · subst hc2
      cases r2 with
      | nil => simp [stripPfx, headTwoBr]
      | cons c3 r3 =>
        by_cases hc3 : c3 = '['
        · subst hc3; simp [stripPfx, headTwoBr]
        · simp [stripPfx, headTwoBr, hc3, Ne.symm hc3]
    · cases r2 with
      | nil => simp [stripPfx, headTwoBr, Ne.symm hc2]
      | cons c3 r3 => simp [stripPfx, headTwoBr, hc2, Ne.symm hc2]

theorem headTwoBr_cons : ∀ (rest : List Char),
    headTwoBr ('[' :: rest) = headIsBr rest := by
  intro rest
  cases rest with
  | nil => simp [headTwoBr, headIsBr]
  | cons c2 r2 => simp [headTwoBr, headIsBr]

/-- The bracket-run recognizer agrees with the substring test for `[[[`,
relative to the carried run state. -/
theorem trip_contains_aux : ∀ (l : List Char) (k : Nat), k ≤ 2 →
    trip k l = (containsSub ['[', '[', '['] l
      || (decide (1 ≤ k) && headTwoBr l) || (decide (2 ≤ k) && headIsBr l)) := by
  intro l
  induction l with
  | nil => intro k hk; simp [trip, containsSub, stripPfx, headTwoBr, headIsBr]
  | cons c rest ih =>
    intro k hk
    by_cases hc : c = '['
    · subst hc
      have hstrip := stripPfx_triple rest
      have hhead := headTwoBr_cons rest
      interval_cases k
      · have := ih 1 (by omega)
        simp only [trip, if_pos rfl]
        norm_num
        rw [this]
        simp [containsSub, hstrip, hhead]
        cases containsSub ['[', '[', '['] rest <;> cases headTwoBr rest <;> simp
      · have := ih 2 (by omega)
        simp only [trip, if_pos rfl]
        norm_num
        rw [this]
        simp [containsSub, hstrip, hhead]
        cases containsSub ['[', '[', '['] rest <;> cases headTwoBr rest <;>
          cases headIsBr rest <;> simp
      · simp [trip, containsSub, hstrip, hhead, headIsBr]
    · have := ih 0 (by omega)
      have hstrip : (stripPfx ['[', '[', '['] (c :: rest)).isSome = false := by
        simp [stripPfx, Ne.symm hc]
      simp only [trip, if_neg hc]
      rw [this]
      have h2 : headTwoBr (c :: rest) = false := by
        cases rest with
        | nil => rfl
        | cons c2 r2 => simp [headTwoBr, hc]
      have h1 : headIsBr (c :: rest) = false := by simp [headIsBr, hc]
      simp [containsSub, hstrip, h2, h1]

/-- `trip` from state 0 is exactly the substring test for `[[[`. -/
theorem trip_eq_contains (l : List Char) :
    trip 0 l = containsSub ['[', '[', '['] l := by
  have := trip_contains_aux l 0 (by omega)
  simpa using this

/-- The idiom-substitution pass never introduces `[[[`: any input free of
that substring produces output free of it. -/
theorem applyBuiltin_noTriple (s : String) (h : strContains s "[[[" = false) :
    strContains (applyBuiltinReplacements s true) "[[[" = false := by
  have hdata : containsSub ['[', '[', '['] s.data = false := h
  have htrip : trip 0 s.data = false := by
    rw [trip_eq_contains]; exact hdata
  have hmain := bScan_noTriple s.data.length s.data 0 (Nat.le_refl _) htrip
    (by omega) (fun h1 => absurd h1 (by omega))
  show containsSub ['[', '[', '['] (applyBuiltinReplacements s true).data = false
  have : (applyBuiltinReplacements s true).data = bScan 0 s.data := rfl
  rw [this, ← trip_eq_contains]
  exact hmain

end CCStatusline

namespace CCStatusline

/-! ## Structural lemmas for the script assembly -/

/-- String append acts as list append on the underlying characters. -/
theorem strAppend_data : ∀ (a b : String), (a ++ b).data = a.data ++ b.data := by
  intro ⟨a⟩ ⟨b⟩
  rfl

/-- Strings with equal character lists are equal. -/
theorem strExt : ∀ (a b : String), a.data = b.data → a = b := by
  intro ⟨a⟩ ⟨b⟩ h
  exact congrArg String.mk h

/-- Associativity of string append. -/
theorem strAppend_assoc (a b c : String) : a ++ b ++ c = a ++ (b ++ c) := by
  apply strExt
  simp [strAppend_data, List.append_assoc]

/-- The empty string is right-neutral for append. -/
theorem strAppend_empty (a : String) : a ++ "" = a := by
  apply strExt
  simp [strAppend_data]

/-- Unfolding `joinSep` at a cons cell. -/
theorem joinSep_cons (sep a : String) (l : List String) :
    joinSep sep (a :: l) = a ++ joinSepTail sep l := by
  cases l with
  | nil => simp [joinSep, joinSepTail, strAppend_empty]
  | cons b r => simp [joinSep, joinSepTail, strAppend_assoc]

/-- The generated header is never the empty part, so the assembly's
empty-part filter always keeps it. -/
theorem header_ne_empty (config : StatuslineConfig) (t : String) :
    (generateScriptHeader config t == "") = false := by
  have hne : generateScriptHeader config t ≠ "" := by
    intro h
    have hdata := congrArg String.data h
    rw [show generateScriptHeader config t
        = headerCreatedPre ++ t ++ headerAfterCreated config from rfl] at hdata
    rw [strAppend_data, strAppend_data] at hdata
    simp [headerCreatedPre] at hdata
  exact beq_eq_false_iff_ne.mpr hne

/-- The compiled script splits as the fixed header prefix, the creation
timestamp, and a timestamp-free remainder. -/
theorem compile_decomposition (enc : ExternalEncoders)
    (config : StatuslineConfig) (t : String) :
    compileStatusline enc config t
      = optimizeBashCode
          (headerCreatedPre ++ (t ++ statuslineTimestampFree enc config)) := by
  unfold compileStatusline rawStatusline statuslineParts
  rw [List.filter_cons_of_pos]
  · rw [joinSep_cons]
    congr 1
    rw [show generateScriptHeader config t
        = headerCreatedPre ++ t ++ headerAfterCreated config from rfl]
    unfold statuslineTimestampFree
    simp only [strAppend_assoc]
  · simp [header_ne_empty]

/-- Permuted lists agree on `contains`. -/
theorem perm_contains {l₁ l₂ : List String} (h : l₁.Perm l₂) :
    ∀ s : String, l₁.contains s = l₂.contains s := by
  intro s
  simp only [List.contains, List.elem_eq_mem, h.mem_iff]

/-- Every part of the script after the header depends only on feature-set
membership: permuting the input feature list leaves all body parts
unchanged. -/
theorem bodyParts_perm (enc : ExternalEncoders) (config : StatuslineConfig)
    (l₁ l₂ : List String) (h : l₁.Perm l₂) :
    statuslineBodyParts enc { config with features := l₁ }
      = statuslineBodyParts enc { config with features := l₂ } := by
  have hc := perm_contains h
  simp only [statuslineBodyParts, buildUsageConfig, buildGitConfig,
    buildSystemConfig, generateDisplaySection, renderDisplayFeature, hc]

/-! ## Severity aggregation lemmas -/

/-- Folding severities from a `high` accumulator yields `high`. -/
theorem foldl_sev_high : ∀ (fs : List ValidationFinding),
    fs.foldl (fun a f => a.max f.severity) Severity.high = Severity.high := by
  intro fs
  induction fs with
  | nil => rfl
  | cons f t ih =>
    have h : Severity.max Severity.high f.severity = Severity.high := by
      cases f.severity <;> rfl
    simp only [List.foldl, h]
    exact ih

/-- A high-severity finding forces the aggregate maximum to `high`. -/
theorem maxSeverity_mem_high : ∀ (fs : List ValidationFinding)
    (f : ValidationFinding), f ∈ fs → f.severity = Severity.high →
    maxSeverity fs = Severity.high := by
  have gen : ∀ (fs : List ValidationFinding) (acc : Severity)
      (f : ValidationFinding), f ∈ fs → f.severity = Severity.high →
      fs.foldl (fun a g => a.max g.severity) acc = Severity.high := by
    intro fs
    induction fs with
    | nil =>
      intro acc f hf
      exact absurd hf (List.not_mem_nil f)
    | cons g t ih =>
      intro acc f hf hsev
      rw [List.foldl_cons]
      rcases List.mem_cons.mp hf with heq | hmem
      · subst heq
        rw [hsev]
        have h : Severity.max acc Severity.high = Severity.high := by
          cases acc <;> rfl
        rw [h]
        exact foldl_sev_high t
      · exact ih _ f hmem hsev
  intro fs f hf hsev
  exact gen fs Severity.low f hf hsev

end CCStatusline

namespace CCStatusline

/-! ## The claims -/

/-- C1 counterexample: the same configuration compiled at two different
invocation times yields different bytes — the header embeds
`new Date().toISOString()` (`generateScriptHeader`,
`bash-generator.ts` line 148), so the claimed byte-determinism of
`generateBashStatusline` fails across invocations. -/
theorem C1_counterexample :
    compileStatusline trivialEncoders cfgC1 "2025-01-01T00:00:00.000Z"
      ≠ compileStatusline trivialEncoders cfgC1 "2026-01-01T00:00:00.000Z" := by
  intro h
  have h2 := congrArg (fun s => s.data.take 150) h
  revert h2
  decide

/-- C1 (amended): the compiled script is a deterministic pure function of
the configuration and the header's creation timestamp, and the timestamp
is confined to the header's `Created:` line — everything after it is
timestamp-free.  Two invocations are byte-identical exactly when they
embed the same timestamp text. -/
theorem C1_corrected :
    ∀ (enc : ExternalEncoders) (config : StatuslineConfig) (t : String),
      compileStatusline enc config t
        = optimizeBashCode
            (headerCreatedPre ++ (t ++ statuslineTimestampFree enc config)) :=
  compile_decomposition

/-- C2 counterexample: permuting the input feature list while keeping the
set fixed changes the compiled bytes — the header records
`config.features.join(', ')` in input order (`generateScriptHeader`,
`bash-generator.ts` line 145). -/
theorem C2_counterexample :
    compileStatusline trivialEncoders cfgC2 "2025-01-01T00:00:00.000Z"
      ≠ compileStatusline trivialEncoders cfgC2swapped "2025-01-01T00:00:00.000Z" := by
  intro h
  have h2 := congrArg (fun s => s.data.take 260) h
  revert h2
  decide

/-- C2 (amended): everything after the header — every emitted section and
their concatenation order — is a pure function of the feature set:
permuting the input feature list leaves all body parts byte-identical;
only the header's `Features:` line records the input order. -/
theorem C2_corrected :
    ∀ (enc : ExternalEncoders) (config : StatuslineConfig)
      (l₁ l₂ : List String), l₁.Perm l₂ →
      statuslineBodyParts enc { config with features := l₁ }
        = statuslineBodyParts enc { config with features := l₂ } :=
  bodyParts_perm

/-- C2 witness: a concrete permuted pair of feature lists with the body
parts byte-identical. -/
theorem C2_witness :
    (["git", "directory"] : List String).Perm ["directory", "git"]
    ∧ statuslineBodyParts trivialEncoders { cfgC2w with features := ["git", "directory"] }
        = statuslineBodyParts trivialEncoders { cfgC2w with features := ["directory", "git"] } := by
  have hp : (["git", "directory"] : List String).Perm ["directory", "git"] :=
    List.Perm.swap "directory" "git" []
  exact ⟨hp, C2_corrected trivialEncoders cfgC2w _ _ hp⟩

/-- C3 counterexample: the claim "for every input string, the output never
contains `[[[`" fails — an input that already contains `[[[` passes
through the pass unchanged. -/
theorem C3_counterexample :
    strContains (applyBuiltinReplacements "[[[" true) "[[[" = true := by
  decide

/-- C3 (amended): the idiom pass rewrites the single-bracket test to the
double-bracket form, leaves the already-double-bracket input
byte-identical (likewise through `optimizeBashCode`), and never
introduces `[[[`: every input free of that substring yields output free
of it. -/
theorem C3_corrected :
    strContains
        (applyBuiltinReplacements "[ -z \"$cached_result\" ] && cached_result=\"\"" true)
        "[[ ! $cached_result ]]" = true
    ∧ applyBuiltinReplacements "[[ -z \"$cached_result\" ]] && cached_result=\"\"" true
        = "[[ -z \"$cached_result\" ]] && cached_result=\"\""
    ∧ strContains
        (optimizeBashCode "[ -z \"$cached_result\" ] && cached_result=\"\"")
        "[[ ! $cached_result ]]" = true
    ∧ optimizeBashCode "[[ -z \"$cached_result\" ]] && cached_result=\"\""
        = "[[ -z \"$cached_result\" ]] && cached_result=\"\""
    ∧ ∀ (s : String), strContains s "[[[" = false →
        strContains (applyBuiltinReplacements s true) "[[[" = false := by
  refine ⟨by decide, by decide, by decide, by decide, ?_⟩
  exact applyBuiltin_noTriple

/-- C3 witness: the no-introduction guarantee at a concrete input. -/
theorem C3_witness :
    strContains "x=1; [ -z $y ] && y=2" "[[[" = false
    ∧ strContains (applyBuiltinReplacements "x=1; [ -z $y ] && y=2" true) "[[[" = false :=
  ⟨by decide, C3_corrected.2.2.2.2 "x=1; [ -z $y ] && y=2" (by decide)⟩

/-- C4: the optimizer is total and non-fatal — when the optimization body
raises, `optimizeBashCodeWith` returns the pre-optimization text
unchanged, and `optimizeBashCode` is exactly that failure policy applied
to the fixed passes. -/
theorem C4_confirmed :
    (∀ (body : String → Except String String) (code e : String),
        body code = Except.error e → optimizeBashCodeWith body code = code)
    ∧ ∀ code, optimizeBashCode code = optimizeBashCodeWith runOptimizationPasses code := by
  refine ⟨fun body code e h => ?_, fun code => rfl⟩
  unfold optimizeBashCodeWith
  rw [h]

/-- C4 witness: a concrete failing optimization body falls back to the
input text. -/
theorem C4_witness :
    (fun (_ : String) => (Except.error "pass failure" : Except String String)) "a=1"
        = Except.error "pass failure"
    ∧ optimizeBashCodeWith
        (fun _ => (Except.error "pass failure" : Except String String)) "a=1" = "a=1" :=
  ⟨rfl, C4_confirmed.1 _ "a=1" "pass failure" rfl⟩

/-- C5: the validator's aggregate severity is the maximum over its
findings, and a quote imbalance introduced by the optimized text forces
`isValid = false` with high severity, making the caller deliver the
original text unchanged. -/
theorem C5_confirmed :
    ∀ (original optimized : String),
      (validateOptimizations original optimized).severity
          = maxSeverity (validateOptimizations original optimized).findings
      ∧ (quoteCount optimized % 2 ≠ quoteCount original % 2 →
          (validateOptimizations original optimized).isValid = false
          ∧ (validateOptimizations original optimized).severity = Severity.high
          ∧ deliverOptimized original optimized = original) := by
  intro original optimized
  refine ⟨rfl, fun h => ?_⟩
  have hmem : (⟨"syntax", Severity.high,
      "unbalanced quotes introduced by optimization"⟩ : ValidationFinding)
      ∈ validationFindings original optimized := by
    unfold validationFindings
    rw [if_pos h]
    exact List.mem_append_left _ (List.mem_cons_self _ _)
  have hsev : maxSeverity (validationFindings original optimized) = Severity.high :=
    maxSeverity_mem_high _ _ hmem rfl
  have hvalid : (validateOptimizations original optimized).isValid = false := by
    have hdef : (validateOptimizations original optimized).isValid
        = decide (maxSeverity (validationFindings original optimized)
            ≠ Severity.high) := rfl
    rw [hdef]
    exact decide_eq_false (fun hne => hne hsev)
  refine ⟨hvalid, hsev, ?_⟩
  unfold deliverOptimized
  rw [hvalid]
  simp

/-- C5 witness: the repository's own malformed snippet (missing closing
quote) is rejected with high severity and the original ships. -/
theorem C5_witness :
    quoteCount "echo \"hello world" % 2 ≠ quoteCount "echo \"hello world\"" % 2
    ∧ (validateOptimizations "echo \"hello world\"" "echo \"hello world").isValid = false
    ∧ (validateOptimizations "echo \"hello world\"" "echo \"hello world").severity = Severity.high
    ∧ deliverOptimized "echo \"hello world\"" "echo \"hello world" = "echo \"hello world\"" := by
  have h := (C5_confirmed "echo \"hello world\"" "echo \"hello world").2 (by decide)
  exact ⟨by decide, h.1, h.2.1, h.2.2⟩

/-- C6: whenever the template cache hits, the returned text is
byte-identical to what the full compilation path produces for the same
discriminating tuple (and the same header timestamp). -/
theorem C6_confirmed :
    ∀ (enc : ExternalEncoders) (config : StatuslineConfig) (t s : String),
      generateOptimizedBashStatusline enc config t = some s →
      s = compileStatusline enc config t := by
  intro enc config t s h
  unfold generateOptimizedBashStatusline at h
  by_cases hc : isCommonTemplate config = true
  · rw [if_pos hc] at h
    exact (Option.some.inj h).symm
  · rw [if_neg hc] at h
    exact absurd h (by simp)

/-- C6 witness: a concrete cache hit returning the pipeline's text. -/
theorem C6_witness :
    generateOptimizedBashStatusline trivialEncoders templateCfg "2025-01-01T00:00:00.000Z"
        = some (compileStatusline trivialEncoders templateCfg "2025-01-01T00:00:00.000Z")
    ∧ compileStatusline trivialEncoders templateCfg "2025-01-01T00:00:00.000Z"
        = compileStatusline trivialEncoders templateCfg "2025-01-01T00:00:00.000Z" := by
  have hsome : generateOptimizedBashStatusline trivialEncoders templateCfg
      "2025-01-01T00:00:00.000Z"
      = some (compileStatusline trivialEncoders templateCfg "2025-01-01T00:00:00.000Z") := by
    unfold generateOptimizedBashStatusline
    rw [if_pos (by decide : isCommonTemplate templateCfg = true)]
  exact ⟨hsome, C6_confirmed trivialEncoders templateCfg _ _ hsome⟩

/-- C7: the file-tier `get` serves the stored value within TTL; between
TTL and the grace window it serves the stored value exactly when the live
refresh fails (and the fresh value when the refresh succeeds); beyond the
grace window the entry is treated as absent. -/
theorem C7_confirmed :
    ∀ (now ttl grace : Nat) (e : FileCacheEntry) (refresh : Option String),
      (now - e.createdAt ≤ ttl →
          fileCacheGet now ttl grace (some e) refresh = some e.value)
      ∧ (ttl < now - e.createdAt → now - e.createdAt ≤ grace →
          fileCacheGet now ttl grace (some e) none = some e.value
          ∧ ∀ v, fileCacheGet now ttl grace (some e) (some v) = some v)
      ∧ (ttl ≤ grace → grace < now - e.createdAt →
          fileCacheGet now ttl grace (some e) refresh
            = fileCacheGet now ttl grace none refresh) := by
  intro now ttl grace e refresh
  refine ⟨fun h => ?_, fun h1 h2 => ⟨?_, fun v => ?_⟩, fun hg h => ?_⟩
  · simp only [fileCacheGet]
    rw [if_pos h]
  · simp only [fileCacheGet]
    rw [if_neg (by omega), if_pos h2]
  · simp only [fileCacheGet]
    rw [if_neg (by omega), if_pos h2]
  · simp only [fileCacheGet]
    rw [if_neg (by omega), if_neg (by omega)]

/-- C7 witness: the repository's documented tuning (30-second TTL,
5-minute grace window) at a stale-but-graced entry whose live refresh
failed. -/
theorem C7_witness :
    30 < 50 - (0 : Nat) ∧ 50 - (0 : Nat) ≤ 300
    ∧ fileCacheGet 50 30 300 (some ⟨"cached blocks", 0⟩) none = some "cached blocks" := by
  have h := ((C7_confirmed 50 30 300 ⟨"cached blocks", 0⟩ none).2.1
    (by decide) (by decide)).1
  exact ⟨by decide, by decide, h⟩

/-- C8 counterexample: the compaction table is not injective — the
distinct verbose identifiers `current_directory_path` and `current_dir`
both map to the alias `cwd`. -/
theorem C8_counterexample :
    COMPACT_VARIABLES.lookup "current_directory_path" = some "cwd"
    ∧ COMPACT_VARIABLES.lookup "current_dir" = some "cwd"
    ∧ "current_directory_path" ≠ "current_dir" := by
  refine ⟨by decide, by decide, by decide⟩

/-- C8 (amended): every alias in the fixed table is strictly shorter than
its verbose identifier, and compaction rewrites the assignment and every
reference form (braced and bare) consistently to the same alias, matching
whole tokens only — but the table is not injective (`cwd` is shared), so
bijectivity fails. -/
theorem C8_corrected :
    COMPACT_VARIABLES.all (fun p => p.2.length < p.1.length) = true
    ∧ applyCompactVariables
        "current_directory_path=\"/x\"\necho \"${current_directory_path}\" \"$current_directory_path\"" true
        = "cwd=\"/x\"\necho \"$cwd\" \"$cwd\""
    ∧ applyCompactVariables "current_directory_path_backup=1" true
        = "current_directory_path_backup=1" := by
  refine ⟨by decide, by decide, by decide⟩

/-- C9: the code violates the claim and the repository's own test
expectation (exactly one newline `printf`): for the usage configuration
that `generateBashStatusline` builds from the `allFeaturesConfig`
fixture, the smart-compact display ends in an unguarded `printf` of a
newline and never sets `content_displayed`, so the trailing newline is
not confined to the single `content_displayed`-guarded conditional. -/
theorem C9_codebug :
    strContains (generateUsageDisplayCode (buildUsageConfig allFeaturesConfig) true)
        "# newline after compact display\nprintf '\\n'" = true
    ∧ strContains (generateUsageDisplayCode (buildUsageConfig allFeaturesConfig) true)
        "content_displayed=1" = false := by
  refine ⟨by decide, by decide⟩

/-- C10: the smart-compact rendering path of `generateUsageDisplayCode`
is taken exactly when strictly more than 5 of the eight usage sub-feature
flags are enabled; `compactMode` alone never activates it. -/
theorem C10_confirmed :
    ∀ (config : UsageFeature) (emojis : Bool), config.enabled = true →
      generateUsageDisplayCode config emojis
        = if countEnabledUsageSubFeatures config > 5
          then optimizeBashCode (smartCompactUsageDisplay config)
          else optimizeBashCode (standardUsageDisplay config emojis) := by
  intro config emojis h
  unfold generateUsageDisplayCode
  rw [h]
  by_cases h5 : countEnabledUsageSubFeatures config > 5
  · simp [h5]
  · simp [h5]

/-- C10 witness: with `compactMode` set but only two sub-features enabled
the standard branch is taken. -/
theorem C10_witness :
    usageTwoCompact.enabled = true
    ∧ generateUsageDisplayCode usageTwoCompact false
      = if countEnabledUsageSubFeatures usageTwoCompact > 5
        then optimizeBashCode (smartCompactUsageDisplay usageTwoCompact)
        else optimizeBashCode (standardUsageDisplay usageTwoCompact false) :=
  ⟨rfl, C10_confirmed usageTwoCompact false rfl⟩

end CCStatusline
